import Mathlib

/-!
# QTerminal: main window and preferences dialog

A shallow embedding of the parts of `src/mainwindow.cpp` and
`src/propertiesdialog.cpp` that decide the behaviour of the close event, the
drop-down window (placement, toggling, focus loss, layer-shell layers), the
read-back of the preferences dialog, the creation of tabs and windows, the
window title, the start-up geometry, the bookmarks file, the history command,
the enabled state of the Actions menu and the text of the shortcuts table.

Conventions.
* A C++ `int` is an `Int`.  Signed overflow is undefined in C++, so the model
  describes the executions in which no `int` operation overflows.  The C++
  operator `/` on `int` truncates toward zero and is `Int.tdiv`.
* `Properties::Instance()` is a singleton; it is the field `props` of the
  window state, and an explicit argument of the dialog functions.
* Stateful member functions are functions from the state before the call to the
  state after it.  The calls into the toolkit that the theorems speak about are
  also recorded, in order, in the field `calls`.
* Everything asked of the environment (the answer of the user to a prompt, the
  screens, the active window, the platform) is an explicit argument.
-/

namespace QTerminal

/-! ## Qt value types (qpoint.h, qsize.h, qrect.h) -/

/-- Qt's `QPoint`. -/
structure QPoint where
  xp : Int
  yp : Int
deriving DecidableEq, Repr

/-- Qt's `QSize`. -/
structure QSize where
  wd : Int
  ht : Int
deriving DecidableEq, Repr

/-- Qt's `QSize::expandedTo`: the component-wise maximum. -/
def QSize.expandedTo (s o : QSize) : QSize :=
  { wd := max s.wd o.wd, ht := max s.ht o.ht }

/-- Qt's `QRect`, stored as in qrect.h by its left, top, right and bottom
coordinates (`x1`, `y1`, `x2`, `y2`). -/
structure QRect where
  x1 : Int
  y1 : Int
  x2 : Int
  y2 : Int
deriving DecidableEq, Repr

namespace QRect

/-- The constructor `QRect(int left, int top, int width, int height)`. -/
def ofXYWH (left top width height : Int) : QRect :=
  { x1 := left, y1 := top, x2 := left + width - 1, y2 := top + height - 1 }

/-- The accessor `QRect::x()`. -/
def x (r : QRect) : Int := r.x1

/-- The accessor `QRect::y()`. -/
def y (r : QRect) : Int := r.y1

/-- The accessor `QRect::left()`. -/
def left (r : QRect) : Int := r.x1

/-- The accessor `QRect::right()`. -/
def right (r : QRect) : Int := r.x2

/-- The accessor `QRect::top()`. -/
def top (r : QRect) : Int := r.y1

/-- The accessor `QRect::width()`. -/
def width (r : QRect) : Int := r.x2 - r.x1 + 1

/-- The accessor `QRect::height()`. -/
def height (r : QRect) : Int := r.y2 - r.y1 + 1

/-- The accessor `QRect::size()`. -/
def size (r : QRect) : QSize := { wd := r.width, ht := r.height }

/-- The accessor `QRect::center()`: `((x1 + x2) / 2, (y1 + y2) / 2)`. -/
def center (r : QRect) : QPoint :=
  { xp := Int.tdiv (r.x1 + r.x2) 2, yp := Int.tdiv (r.y1 + r.y2) 2 }

/-- The mutator `QRect::moveCenter`:
`w = x2 - x1; h = y2 - y1; x1 = p.x() - w/2; y1 = p.y() - h/2; x2 = x1 + w; y2 = y1 + h`. -/
def moveCenter (r : QRect) (p : QPoint) : QRect :=
  let w := r.x2 - r.x1
  let h := r.y2 - r.y1
  let nx1 := p.xp - Int.tdiv w 2
  let ny1 := p.yp - Int.tdiv h 2
  { x1 := nx1, y1 := ny1, x2 := nx1 + w, y2 := ny1 + h }

/-- The mutator `QRect::moveTop`: `y2 += (pos - y1); y1 = pos`. -/
def moveTop (r : QRect) (pos : Int) : QRect :=
  { r with y2 := r.y2 + (pos - r.y1), y1 := pos }

end QRect

/-! ## The settings object -/

/-- The fields of the `Properties` singleton that the two source files read or
write and that the development speaks about.  `mainWindowState` is the byte
array returned by `QMainWindow::saveState()`. -/
structure Properties where
  askOnExit : Bool
  savePosOnExit : Bool
  saveSizeOnExit : Bool
  saveStateOnExit : Bool
  useCWD : Bool
  m_openNewTabRightToActiveTab : Bool
  audibleBell : Bool
  fixedTabWidth : Bool
  showCloseTabButton : Bool
  closeTabOnMiddleClick : Bool
  keyboardCursorBlink : Bool
  hideTabBarWithOneTab : Bool
  boldIntense : Bool
  noMenubarAccel : Bool
  menuVisible : Bool
  borderless : Bool
  m_disableBracketedPasteMode : Bool
  highlightCurrentTerminal : Bool
  focusOnMoueOver : Bool
  showTerminalSizeHint : Bool
  historyLimited : Bool
  dropShowOnStart : Bool
  dropKeepOpen : Bool
  useBookmarks : Bool
  changeWindowTitle : Bool
  changeWindowIcon : Bool
  enabledBidiSupport : Bool
  useFontBoxDrawingChars : Bool
  trimPastedTrailingNewlines : Bool
  confirmMultilinePaste : Bool
  tabBarless : Bool
  windowMaximized : Bool
  mainWindowPosition : QPoint
  mainWindowSize : QSize
  mainWindowState : List Nat
  fixedWindowSize : QSize
  mouseAutoHideDelay : Int
  dropWidth : Int
  dropHeight : Int
  terminalMargin : Int
  termTransparency : Int
  fixedTabWidthValue : Int
  historyLimitedTo : Int
  terminalsPreset : Int
  handleHistoryCommand : String
  backgroundImage : String
  wordCharacters : String
deriving DecidableEq, Repr

/-! ## The main window -/

/-- The enumeration `LayerShellQt::Window::Layer`. -/
inductive Layer where
  | LayerBackground
  | LayerBottom
  | LayerTop
  | LayerOverlay
deriving DecidableEq, Repr

/-- The enumeration `LayerShellQt::Window::KeyboardInteractivity`. -/
inductive KeyboardInteractivity where
  | KeyboardInteractivityNone
  | KeyboardInteractivityExclusive
  | KeyboardInteractivityOnDemand
deriving DecidableEq, Repr

/-- The flags `LayerShellQt::Window::Anchors`. -/
structure Anchors where
  anchorTop : Bool
  anchorBottom : Bool
  anchorLeft : Bool
  anchorRight : Bool
deriving DecidableEq, Repr

/-- The object behind `m_layerWindow` (a `LayerShellQt::Window`), with the
properties that mainwindow.cpp sets on it. -/
structure LayerWindow where
  layer : Layer
  keyboardInteractivity : KeyboardInteractivity
  anchors : Anchors
  scope : String
  screenFromCompositor : Bool
deriving DecidableEq, Repr

/-- A `QAction` of the `actions` map: its checked and enabled flags. -/
structure QAction where
  checked : Bool
  enabled : Bool
deriving DecidableEq, Repr

/-- Qt's `QAction::setChecked`. -/
def QAction.setChecked (a : QAction) (b : Bool) : QAction :=
  { a with checked := b }

/-- A child `QDialog` of the window, as `showHide` looks at it: the value of
`isModal()`. -/
structure QDialog where
  isModal : Bool
deriving DecidableEq, Repr

/-- What `closeEvent` asks of `consoleTabulator` (tabwidget.cpp is not part of
the two source files): `count()`, the number of `TermWidget` children of
`terminalHolder()`, and `hasRunningProcess()`.  Removing a tab is tracked in
`count` only. -/
structure TabWidget where
  count : Nat
  holderTerminals : Nat
  hasRunningProcess : Bool
deriving DecidableEq, Repr

/-- The calls into the toolkit and into other classes that the window functions
make and that the development observes. -/
inductive Call where
  | hide
  | realignSetGeometry (g : QRect)
  | show
  | activateWindow
  | closePromptExec
  | disconnectBookmarksDock
  | rebuildActions
  | saveSettings
  | removeTab (index : Nat)
  | setWindowFlagsDialog
  | setDropShortcut
deriving DecidableEq, Repr

/-- The state of a `MainWindow` together with the `Properties` singleton.
`minimumSize` is the size the constructor passes to `setMinimumSize` (ten
times the width of a space by the height of the font), `maximumSize` is Qt's
`maximumSize()`.  `frameLeft` and `frameTop` are the widths of the window
frame, so that `pos()` is the top-left corner of `geometry()` moved by the
frame. -/
structure MainWindow where
  props : Properties
  m_dropMode : Bool
  m_layerWindow : Option LayerWindow
  m_dropLockButton : Option Bool
  isVisible : Bool
  geometry : QRect
  minimumSize : QSize
  maximumSize : QSize
  frameLeft : Int
  frameTop : Int
  isMaximized : Bool
  dockState : List Nat
  fullscreenAction : Option QAction
  dialogs : List QDialog
  consoleTabulator : TabWidget
  calls : List Call
deriving DecidableEq, Repr

/-- What the user does with the exit dialog of `closePrompt`: whether the dialog
ends accepted (the Yes button) and whether "Do not ask again" is checked. -/
structure PromptAnswer where
  yes : Bool
  dontAskAgain : Bool
deriving DecidableEq, Repr

/-- The screens as `realign` sees them: the available geometry of the screen
under the cursor (`none` when `screenAt` returns `nullptr`) and that of the
primary screen. -/
structure Screens where
  screenAtCursor : Option QRect
  primaryScreen : QRect
deriving DecidableEq, Repr

/-- The platform as `enableDropMode` sees it: whether the platform name is
"wayland", whether `windowHandle()` returns a window, and whether
`LayerShellQt::Window::get` returns an object for it. -/
structure Platform where
  wayland : Bool
  hasWindowHandle : Bool
  layerShell : Bool
deriving DecidableEq, Repr

/-- The type of a `QEvent`, as far as `MainWindow::event` tells them apart. -/
inductive EventType where
  | WindowDeactivate
  | WindowBlocked
  | WindowUnblocked
  | Other
deriving DecidableEq, Repr

/-- An event delivered to `MainWindow::event` together with what the handler
asks of the application at that moment: whether `qApp->activeWindow()` is
`nullptr`, and whether the active modal widget is a `QDialog` with a window
handle for which `LayerShellQt::Window::get` returns an object. -/
structure WindowEvent where
  type : EventType
  noActiveWindow : Bool
  modalDialogLayerShell : Bool
deriving DecidableEq, Repr

namespace MainWindow

/-- Appends a call to the record of calls. -/
def record (st : MainWindow) (c : Call) : MainWindow :=
  { st with calls := st.calls ++ [c] }

/-- Qt's `QWidget::pos()` for a window: the top-left corner of the frame. -/
def pos (st : MainWindow) : QPoint :=
  { xp := st.geometry.x1 - st.frameLeft, yp := st.geometry.y1 - st.frameTop }

/-- Qt's `QWidget::size()`: the size of `geometry()`. -/
def size (st : MainWindow) : QSize := st.geometry.size

/-- Qt's `QMainWindow::saveState()`. -/
def saveState (st : MainWindow) : List Nat := st.dockState

/-- Qt's `QWidget::hide()`. -/
def hide (st : MainWindow) : MainWindow :=
  { st with isVisible := false, calls := st.calls ++ [Call.hide] }

/-- Qt's `QWidget::show()`. -/
def «show» (st : MainWindow) : MainWindow :=
  { st with isVisible := true, calls := st.calls ++ [Call.show] }

/-- Qt's `QWidget::setGeometry`, as called by `realign`: the window takes the
top-left corner of `g`, and the size of `g` bounded from above by the maximum
size and then from below by the minimum size
(`w = qMin(w, maxw); w = qMax(w, minw)`, and the same for the height). -/
def setGeometry (st : MainWindow) (g : QRect) : MainWindow :=
  let w := max (min g.width st.maximumSize.wd) st.minimumSize.wd
  let h := max (min g.height st.maximumSize.ht) st.minimumSize.ht
  { st with
    geometry := QRect.ofXYWH g.x g.y w h,
    calls := st.calls ++ [Call.realignSetGeometry g] }

/-- `MainWindow::setKeepOpen`: stores the value and, when the lock button
exists, sets its checked state (the field holds that state). -/
def setKeepOpen (st : MainWindow) (value : Bool) : MainWindow :=
  let st1 := { st with props := { st.props with dropKeepOpen := value } }
  match st1.m_dropLockButton with
  | none => st1
  | some _ => { st1 with m_dropLockButton := some value }

/-- The rectangle computed by `MainWindow::realign` from the available geometry
`desktop` of the chosen screen. -/
def realignRect (desktop : QRect) (p : Properties) : QRect :=
  let g := QRect.ofXYWH desktop.x desktop.y
    (Int.tdiv (desktop.width * p.dropWidth) 100)
    (Int.tdiv (desktop.height * p.dropHeight) 100)
  let g1 := g.moveCenter desktop.center
  g1.moveTop desktop.top

/-- The rectangle `desktop` of `MainWindow::realign`: the available geometry of
the screen under the cursor, or of the primary screen when there is none. -/
def desktop (scr : Screens) : QRect :=
  match scr.screenAtCursor with
  | some r => r
  | none => scr.primaryScreen

/-- `MainWindow::realign`. -/
def realign (scr : Screens) (st : MainWindow) : MainWindow :=
  if st.m_dropMode then
    match st.m_layerWindow with
    | some _ => st
    | none =>
      let g := realignRect (desktop scr) st.props
      if g ≠ st.geometry then st.setGeometry g else st
  else st

/-- The loop at the head of `MainWindow::showHide`: whether some child dialog
is modal (the function returns at the first one). -/
def hasModalDialog : List QDialog → Bool
  | [] => false
  | d :: ds => if d.isModal then true else hasModalDialog ds

/-- `MainWindow::showHide`. -/
def showHide (scr : Screens) (st : MainWindow) : MainWindow :=
  if hasModalDialog st.dialogs then st
  else if st.isVisible then st.hide
  else
    let st1 :=
      match st.fullscreenAction with
      | some a => { st with fullscreenAction := some (a.setChecked false) }
      | none => st
    let st2 := realign scr st1
    let st3 := st2.show
    st3.record Call.activateWindow

/-- `MainWindow::closePrompt`: runs the exit dialog; when it ends accepted,
`askOnExit` becomes the negation of the "Do not ask again" box. -/
def closePrompt (ans : PromptAnswer) (st : MainWindow) : Bool × MainWindow :=
  let st1 := st.record Call.closePromptExec
  let res := ans.yes
  if res then
    (res, { st1 with props := { st1.props with askOnExit := !ans.dontAskAgain } })
  else (res, st1)

/-- The condition of the `if` in `MainWindow::closeEvent`, with the short-circuit
evaluation of `||`: the prompt runs only when the four tests before it fail. -/
def closeCondition (ans : PromptAnswer) (st : MainWindow) : Bool × MainWindow :=
  if !st.props.askOnExit then (true, st)
  else if st.consoleTabulator.count == 0 then (true, st)
  else if st.consoleTabulator.holderTerminals == 0 then (true, st)
  else if !st.consoleTabulator.hasRunningProcess then (true, st)
  else closePrompt ans st

/-- The loop `for (int i = count(); i > 0; --i) removeTab(i - 1)`. -/
def removeAllTabs : Nat → MainWindow → MainWindow
  | 0, st => st
  | i + 1, st =>
    removeAllTabs i
      { st with
        consoleTabulator := { st.consoleTabulator with count := st.consoleTabulator.count - 1 },
        calls := st.calls ++ [Call.removeTab i] }

/-- The part of `MainWindow::closeEvent` that stores position, size and state. -/
def saveGeometry (st : MainWindow) : MainWindow :=
  if !st.m_dropMode then
    let st1 :=
      if st.props.savePosOnExit then
        { st with props := { st.props with mainWindowPosition := st.pos } }
      else st
    let st2 :=
      if st1.props.saveSizeOnExit then
        { st1 with props := { st1.props with
            mainWindowSize := st1.size, windowMaximized := st1.isMaximized } }
      else st1
    if st2.props.saveStateOnExit then
      { st2 with props := { st2.props with mainWindowState := st2.saveState } }
    else st2
  else st

/-- `MainWindow::rebuildActions`, as far as the state here is concerned: the
FULLSCREEN action is created anew, checkable and unchecked, and `toggleTabBar`
stores in `tabBarless` the negation of the checked state of the new "Show Tab
Bar" action, which was just set to `!tabBarless`. -/
def rebuildActions (st : MainWindow) : MainWindow :=
  let showTabBarChecked := !st.props.tabBarless
  { st with
    fullscreenAction := some { checked := false, enabled := true },
    props := { st.props with tabBarless := !showTabBarChecked },
    calls := st.calls ++ [Call.rebuildActions] }

/-- `MainWindow::closeEvent`.  The result holds whether the event ends accepted
(`ev->accept()`) or ignored (`ev->ignore()`). -/
def closeEvent (ans : PromptAnswer) (st : MainWindow) : Bool × MainWindow :=
  let (ok, st1) := closeCondition ans st
  if ok then
    let st2 := st1.record Call.disconnectBookmarksDock
    let st3 := saveGeometry st2
    let st4 := rebuildActions st3
    let st5 := st4.record Call.saveSettings
    let st6 := removeAllTabs st5.consoleTabulator.count st5
    (true, st6)
  else (false, st1)

/-- `MainWindow::enableDropMode`. -/
def enableDropMode (pf : Platform) (scr : Screens) (st : MainWindow) : MainWindow :=
  let lw : LayerWindow :=
    { layer := Layer.LayerOverlay,
      keyboardInteractivity := KeyboardInteractivity.KeyboardInteractivityOnDemand,
      anchors := { anchorTop := true, anchorBottom := true,
                   anchorLeft := true, anchorRight := true },
      scope := "dropdown_terminal",
      screenFromCompositor := true }
  let st1 :=
    if pf.wayland then
      if pf.hasWindowHandle then
        { st with m_layerWindow := if pf.layerShell then some lw else none }
      else st
    else st
  let st2 := st1.record Call.setWindowFlagsDialog
  let st3 := { st2 with m_dropLockButton := some false }
  let st4 := st3.setKeepOpen st3.props.dropKeepOpen
  let st5 := st4.record Call.setDropShortcut
  realign scr st5

/-- `MainWindow::event`, up to the call of the base class `QMainWindow::event`,
whose result it returns. -/
def event (ev : WindowEvent) (st : MainWindow) : MainWindow :=
  match ev.type with
  | EventType.WindowDeactivate =>
    if st.m_dropMode && !st.props.dropKeepOpen && ev.noActiveWindow then
      match st.m_layerWindow with
      | none => st.hide
      | some lw => if lw.layer = Layer.LayerOverlay then st.hide else st
    else st
  | EventType.WindowBlocked =>
    match st.m_layerWindow with
    | some lw =>
      if st.m_dropMode then
        if ev.modalDialogLayerShell then
          { st with m_layerWindow := some { lw with layer := Layer.LayerTop } }
        else st
      else st
    | none => st
  | EventType.WindowUnblocked =>
    match st.m_layerWindow with
    | some lw =>
      if st.m_dropMode then
        { st with m_layerWindow := some { lw with layer := Layer.LayerOverlay } }
      else st
    | none => st
  | EventType.Other => st

/-- The state after a sequence of events, each handled by `MainWindow::event`. -/
def events : List WindowEvent → MainWindow → MainWindow
  | [], st => st
  | ev :: evs, st => events evs (event ev st)

end MainWindow

/-! ## The preferences dialog -/

/-- Qt's `QCheckBox`, a two-state check box: its checked state. -/
structure QCheckBox where
  isChecked : Bool
deriving DecidableEq, Repr

/-- Qt's `QAbstractButton::setChecked` on a check box. -/
def QCheckBox.setChecked (_c : QCheckBox) (b : Bool) : QCheckBox :=
  { isChecked := b }

/-- The two buttons `historyLimited` and `historyUnlimited`: their checked
states, and whether the form makes them mutually exclusive (radio buttons of
one parent) or not. -/
structure HistoryButtons where
  exclusive : Bool
  historyLimited : Bool
  historyUnlimited : Bool
deriving DecidableEq, Repr

/-- Qt's `QAbstractButton::setChecked` on a button `self` whose only companion
is `other`, giving the new states of both.  Nothing happens when the state is
already the wanted one.  In an exclusive pair the checked button cannot be
unchecked while the other is unchecked, and checking a button unchecks the
other. -/
def buttonSetChecked (exclusive self other checked : Bool) : Bool × Bool :=
  if self == checked then (self, other)
  else if exclusive then
    if !checked && !other then (self, other)
    else if checked then (true, false)
    else (false, other)
  else (checked, other)

/-- The call `historyLimited->setChecked(b)`. -/
def HistoryButtons.setLimitedChecked (h : HistoryButtons) (b : Bool) : HistoryButtons :=
  let r := buttonSetChecked h.exclusive h.historyLimited h.historyUnlimited b
  { h with historyLimited := r.1, historyUnlimited := r.2 }

/-- The call `historyUnlimited->setChecked(b)`. -/
def HistoryButtons.setUnlimitedChecked (h : HistoryButtons) (b : Bool) : HistoryButtons :=
  let r := buttonSetChecked h.exclusive h.historyUnlimited h.historyLimited b
  { h with historyUnlimited := r.1, historyLimited := r.2 }

/-- Qt's `QSpinBox`: its range and its value. -/
structure QSpinBox where
  minimum : Int
  maximum : Int
  value : Int
deriving DecidableEq, Repr

namespace QSpinBox

/-- Qt's `QAbstractSpinBoxPrivate::bound` without wrapping. -/
def bound (s : QSpinBox) (v : Int) : Int :=
  let v1 := if v < s.minimum then s.minimum else v
  if v1 > s.maximum then s.maximum else v1

/-- Qt's `QSpinBox::setValue`: the value is brought into the range. -/
def setValue (s : QSpinBox) (v : Int) : QSpinBox :=
  { s with value := s.bound v }

/-- Qt's `QAbstractSpinBoxPrivate::setRange`. -/
def setRange (s : QSpinBox) (mn mx : Int) : QSpinBox :=
  let s1 : QSpinBox := { s with minimum := mn, maximum := if mn < mx then mx else mn }
  { s1 with value := s1.bound s1.value }

/-- Qt's `QSpinBox::setMinimum`. -/
def setMinimum (s : QSpinBox) (m : Int) : QSpinBox :=
  s.setRange m (if s.maximum > m then s.maximum else m)

/-- Qt's `QSpinBox::setMaximum`. -/
def setMaximum (s : QSpinBox) (m : Int) : QSpinBox :=
  s.setRange (if s.minimum < m then s.minimum else m) m

end QSpinBox

/-- Qt's `QComboBox`: the number of its items and the current index. -/
structure QComboBox where
  count : Int
  currentIndex : Int
deriving DecidableEq, Repr

/-- Qt's `QComboBox::setCurrentIndex`: an index outside the items gives the
invalid index -1. -/
def QComboBox.setCurrentIndex (c : QComboBox) (i : Int) : QComboBox :=
  { c with currentIndex := if 0 ≤ i ∧ i < c.count then i else -1 }

/-- Qt's `QLineEdit`: its text. -/
structure QLineEdit where
  text : String
deriving DecidableEq, Repr

/-- Qt's `QLineEdit::setText`. -/
def QLineEdit.setText (_l : QLineEdit) (t : String) : QLineEdit :=
  { text := t }

/-- Qt's `QSize::isEmpty`. -/
def QSize.isEmpty (s : QSize) : Bool := s.wd < 1 || s.ht < 1

/-- What the constructor of the dialog asks of its parent widget: its minimum
size, and the size `ag` computed from the screen of its window (`none` when the
parent has no window handle or no screen). -/
structure ParentWindow where
  minimumSize : QSize
  availableSize : Option QSize
deriving DecidableEq, Repr

/-- The widgets of `PropertiesDialog` that are backed by a field of
`Properties` kept here: check boxes, the two history buttons, spin boxes, the
preset combo box and line edits.  The form propertiesdialog.ui is not part of
the two source files; the state of the widgets after `setupUi` is an argument
of the constructor. -/
structure PropertiesDialog where
  fixedTabWidthCheckBox : QCheckBox
  closeTabButtonCheckBox : QCheckBox
  closeTabOnMiddleClickCheckBox : QCheckBox
  keybCursorBlinkCheckBox : QCheckBox
  hideTabBarCheckBox : QCheckBox
  boldIntenseCheckBox : QCheckBox
  menuAccelCheckBox : QCheckBox
  showMenuCheckBox : QCheckBox
  borderlessCheckBox : QCheckBox
  disableBracketedPasteModeCheckBox : QCheckBox
  highlightCurrentCheckBox : QCheckBox
  focusOnMoueOverCheckBox : QCheckBox
  showTerminalSizeHintCheckBox : QCheckBox
  askOnExitCheckBox : QCheckBox
  savePosOnExitCheckBox : QCheckBox
  saveSizeOnExitCheckBox : QCheckBox
  saveStateOnExitCheckBox : QCheckBox
  useCwdCheckBox : QCheckBox
  openNewTabRightToActiveTabCheckBox : QCheckBox
  dropShowOnStartCheckBox : QCheckBox
  dropKeepOpenCheckBox : QCheckBox
  useBookmarksCheckBox : QCheckBox
  changeWindowTitleCheckBox : QCheckBox
  changeWindowIconCheckBox : QCheckBox
  enabledBidiSupportCheckBox : QCheckBox
  useFontBoxDrawingCharsCheckBox : QCheckBox
  trimPastedTrailingNewlinesCheckBox : QCheckBox
  confirmMultilinePasteCheckBox : QCheckBox
  audibleBellCheckBox : QCheckBox
  audibleBellCheckBoxEnabled : Bool
  historyButtons : HistoryButtons
  terminalMarginSpinBox : QSpinBox
  termTransparencyBox : QSpinBox
  fixedTabWidthSpinBox : QSpinBox
  historyLimitedTo : QSpinBox
  dropHeightSpinBox : QSpinBox
  dropWidthSpinBox : QSpinBox
  fixedWithSpinBox : QSpinBox
  fixedHeightSpinBox : QSpinBox
  mouseAutoHideSpinBox : QSpinBox
  terminalPresetComboBox : QComboBox
  backgroundImageLineEdit : QLineEdit
  wordCharactersLineEdit : QLineEdit
  handleHistoryLineEdit : QLineEdit
deriving DecidableEq, Repr

namespace PropertiesDialog

/-- The constructor `PropertiesDialog::PropertiesDialog`, from the widgets
`ui` as `setupUi` leaves them: every widget is filled from its field of
`Properties`.  `haveLibcanberra` says whether `HAVE_LIBCANBERRA` is defined. -/
def init (haveLibcanberra : Bool) (ui : PropertiesDialog) (parent : Option ParentWindow)
    (p : Properties) : PropertiesDialog :=
  let ag : QSize :=
    match parent with
    | some w =>
      match w.availableSize with
      | some a => a
      | none => { wd := -1, ht := -1 }
    | none => { wd := -1, ht := -1 }
  let minWinSize : QSize :=
    match parent with
    | some w => w.minimumSize
    | none => { wd := 0, ht := 0 }
  let fw1 := ui.fixedWithSpinBox.setMinimum minWinSize.wd
  let fh1 := ui.fixedHeightSpinBox.setMinimum minWinSize.ht
  let fw2 := if !ag.isEmpty then fw1.setMaximum (max ag.wd minWinSize.wd) else fw1
  let fh2 := if !ag.isEmpty then fh1.setMaximum (max ag.ht minWinSize.ht) else fh1
  let autoDelay := p.mouseAutoHideDelay
  let autoDelay1 := if autoDelay > 0 then Int.tdiv autoDelay 1000 else autoDelay
  { ui with
    fixedTabWidthCheckBox := ui.fixedTabWidthCheckBox.setChecked p.fixedTabWidth,
    closeTabButtonCheckBox := ui.closeTabButtonCheckBox.setChecked p.showCloseTabButton,
    closeTabOnMiddleClickCheckBox := ui.closeTabOnMiddleClickCheckBox.setChecked p.closeTabOnMiddleClick,
    keybCursorBlinkCheckBox := ui.keybCursorBlinkCheckBox.setChecked p.keyboardCursorBlink,
    hideTabBarCheckBox := ui.hideTabBarCheckBox.setChecked p.hideTabBarWithOneTab,
    boldIntenseCheckBox := ui.boldIntenseCheckBox.setChecked p.boldIntense,
    menuAccelCheckBox := ui.menuAccelCheckBox.setChecked p.noMenubarAccel,
    showMenuCheckBox := ui.showMenuCheckBox.setChecked p.menuVisible,
    borderlessCheckBox := ui.borderlessCheckBox.setChecked p.borderless,
    disableBracketedPasteModeCheckBox := ui.disableBracketedPasteModeCheckBox.setChecked p.m_disableBracketedPasteMode,
    highlightCurrentCheckBox := ui.highlightCurrentCheckBox.setChecked p.highlightCurrentTerminal,
    focusOnMoueOverCheckBox := ui.focusOnMoueOverCheckBox.setChecked p.focusOnMoueOver,
    showTerminalSizeHintCheckBox := ui.showTerminalSizeHintCheckBox.setChecked p.showTerminalSizeHint,
    askOnExitCheckBox := ui.askOnExitCheckBox.setChecked p.askOnExit,
    savePosOnExitCheckBox := ui.savePosOnExitCheckBox.setChecked p.savePosOnExit,
    saveSizeOnExitCheckBox := ui.saveSizeOnExitCheckBox.setChecked p.saveSizeOnExit,
    saveStateOnExitCheckBox := ui.saveStateOnExitCheckBox.setChecked p.saveStateOnExit,
    useCwdCheckBox := ui.useCwdCheckBox.setChecked p.useCWD,
    openNewTabRightToActiveTabCheckBox := ui.openNewTabRightToActiveTabCheckBox.setChecked p.m_openNewTabRightToActiveTab,
    dropShowOnStartCheckBox := ui.dropShowOnStartCheckBox.setChecked p.dropShowOnStart,
    dropKeepOpenCheckBox := ui.dropKeepOpenCheckBox.setChecked p.dropKeepOpen,
    useBookmarksCheckBox := ui.useBookmarksCheckBox.setChecked p.useBookmarks,
    changeWindowTitleCheckBox := ui.changeWindowTitleCheckBox.setChecked p.changeWindowTitle,
    changeWindowIconCheckBox := ui.changeWindowIconCheckBox.setChecked p.changeWindowIcon,
    enabledBidiSupportCheckBox := ui.enabledBidiSupportCheckBox.setChecked p.enabledBidiSupport,
    useFontBoxDrawingCharsCheckBox := ui.useFontBoxDrawingCharsCheckBox.setChecked p.useFontBoxDrawingChars,
    trimPastedTrailingNewlinesCheckBox := ui.trimPastedTrailingNewlinesCheckBox.setChecked p.trimPastedTrailingNewlines,
    confirmMultilinePasteCheckBox := ui.confirmMultilinePasteCheckBox.setChecked p.confirmMultilinePaste,
    terminalMarginSpinBox := ui.terminalMarginSpinBox.setValue p.terminalMargin,
    termTransparencyBox := ui.termTransparencyBox.setValue p.termTransparency,
    fixedTabWidthSpinBox := ui.fixedTabWidthSpinBox.setValue p.fixedTabWidthValue,
    historyLimitedTo := ui.historyLimitedTo.setValue p.historyLimitedTo,
    dropHeightSpinBox := ui.dropHeightSpinBox.setValue p.dropHeight,
    dropWidthSpinBox := ui.dropWidthSpinBox.setValue p.dropWidth,
    backgroundImageLineEdit := ui.backgroundImageLineEdit.setText p.backgroundImage,
    wordCharactersLineEdit := ui.wordCharactersLineEdit.setText p.wordCharacters,
    handleHistoryLineEdit := ui.handleHistoryLineEdit.setText p.handleHistoryCommand,
    mouseAutoHideSpinBox := ui.mouseAutoHideSpinBox.setValue autoDelay1,
    fixedWithSpinBox := fw2.setValue p.fixedWindowSize.wd,
    fixedHeightSpinBox := fh2.setValue p.fixedWindowSize.ht,
    audibleBellCheckBox :=
      if haveLibcanberra then ui.audibleBellCheckBox.setChecked p.audibleBell
      else ui.audibleBellCheckBox,
    audibleBellCheckBoxEnabled :=
      if haveLibcanberra then ui.audibleBellCheckBoxEnabled else false,
    historyButtons :=
      (ui.historyButtons.setLimitedChecked p.historyLimited).setUnlimitedChecked
        (!p.historyLimited),
    terminalPresetComboBox := ui.terminalPresetComboBox.setCurrentIndex p.terminalsPreset }

/-- The value that `PropertiesDialog::apply` stores in `mouseAutoHideDelay` for
the spin box value `v`. -/
def applyAutoDelay (v : Int) : Int :=
  let autoDelay := v
  if autoDelay > 0 then autoDelay * 1000 else -1

/-- `PropertiesDialog::apply`, on the fields of `Properties` kept here: every
field is read back from its widget.  The shortcuts table, the bookmarks file,
`saveSettings` and the signal `propertiesChanged` lie outside this state. -/
def apply (haveLibcanberra : Bool) (d : PropertiesDialog) (p : Properties) : Properties :=
  { p with
    fixedTabWidth := d.fixedTabWidthCheckBox.isChecked,
    showCloseTabButton := d.closeTabButtonCheckBox.isChecked,
    closeTabOnMiddleClick := d.closeTabOnMiddleClickCheckBox.isChecked,
    keyboardCursorBlink := d.keybCursorBlinkCheckBox.isChecked,
    hideTabBarWithOneTab := d.hideTabBarCheckBox.isChecked,
    boldIntense := d.boldIntenseCheckBox.isChecked,
    noMenubarAccel := d.menuAccelCheckBox.isChecked,
    menuVisible := d.showMenuCheckBox.isChecked,
    borderless := d.borderlessCheckBox.isChecked,
    m_disableBracketedPasteMode := d.disableBracketedPasteModeCheckBox.isChecked,
    highlightCurrentTerminal := d.highlightCurrentCheckBox.isChecked,
    focusOnMoueOver := d.focusOnMoueOverCheckBox.isChecked,
    showTerminalSizeHint := d.showTerminalSizeHintCheckBox.isChecked,
    askOnExit := d.askOnExitCheckBox.isChecked,
    savePosOnExit := d.savePosOnExitCheckBox.isChecked,
    saveSizeOnExit := d.saveSizeOnExitCheckBox.isChecked,
    saveStateOnExit := d.saveStateOnExitCheckBox.isChecked,
    useCWD := d.useCwdCheckBox.isChecked,
    m_openNewTabRightToActiveTab := d.openNewTabRightToActiveTabCheckBox.isChecked,
    dropShowOnStart := d.dropShowOnStartCheckBox.isChecked,
    dropKeepOpen := d.dropKeepOpenCheckBox.isChecked,
    useBookmarks := d.useBookmarksCheckBox.isChecked,
    changeWindowTitle := d.changeWindowTitleCheckBox.isChecked,
    changeWindowIcon := d.changeWindowIconCheckBox.isChecked,
    enabledBidiSupport := d.enabledBidiSupportCheckBox.isChecked,
    useFontBoxDrawingChars := d.useFontBoxDrawingCharsCheckBox.isChecked,
    trimPastedTrailingNewlines := d.trimPastedTrailingNewlinesCheckBox.isChecked,
    confirmMultilinePaste := d.confirmMultilinePasteCheckBox.isChecked,
    terminalMargin := d.terminalMarginSpinBox.value,
    termTransparency := d.termTransparencyBox.value,
    fixedTabWidthValue := d.fixedTabWidthSpinBox.value,
    historyLimitedTo := d.historyLimitedTo.value,
    dropHeight := d.dropHeightSpinBox.value,
    dropWidth := d.dropWidthSpinBox.value,
    backgroundImage := d.backgroundImageLineEdit.text,
    wordCharacters := d.wordCharactersLineEdit.text,
    handleHistoryCommand := d.handleHistoryLineEdit.text,
    fixedWindowSize :=
      QSize.expandedTo { wd := d.fixedWithSpinBox.value, ht := d.fixedHeightSpinBox.value }
        { wd := 300, ht := 200 },
    audibleBell := if haveLibcanberra then d.audibleBellCheckBox.isChecked else false,
    historyLimited := d.historyButtons.historyLimited,
    terminalsPreset := d.terminalPresetComboBox.currentIndex,
    mouseAutoHideDelay := applyAutoDelay d.mouseAutoHideSpinBox.value }

end PropertiesDialog

/-! ## Sample states -/

/-- A settings object with every flag off and a drop-down size of 70 by 50
percent. -/
def sampleProperties : Properties :=
  { askOnExit := false, savePosOnExit := false, saveSizeOnExit := false,
    saveStateOnExit := false, useCWD := false, m_openNewTabRightToActiveTab := false,
    audibleBell := false, fixedTabWidth := false, showCloseTabButton := false,
    closeTabOnMiddleClick := false, keyboardCursorBlink := false,
    hideTabBarWithOneTab := false, boldIntense := false, noMenubarAccel := false,
    menuVisible := false, borderless := false, m_disableBracketedPasteMode := false,
    highlightCurrentTerminal := false, focusOnMoueOver := false,
    showTerminalSizeHint := false, historyLimited := false, dropShowOnStart := false,
    dropKeepOpen := false, useBookmarks := false, changeWindowTitle := false,
    changeWindowIcon := false, enabledBidiSupport := false,
    useFontBoxDrawingChars := false, trimPastedTrailingNewlines := false,
    confirmMultilinePaste := false, tabBarless := false, windowMaximized := false,
    mainWindowPosition := { xp := 0, yp := 0 }, mainWindowSize := { wd := 640, ht := 480 },
    mainWindowState := [], fixedWindowSize := { wd := 600, ht := 400 },
    mouseAutoHideDelay := -1, dropWidth := 70, dropHeight := 50, terminalMargin := 0,
    termTransparency := 0, fixedTabWidthValue := 500, historyLimitedTo := 1000,
    terminalsPreset := 0, handleHistoryCommand := "", backgroundImage := "",
    wordCharacters := "" }

/-- A settings object that asks on exit and saves position, size and state. -/
def savingProperties : Properties :=
  { sampleProperties with
    askOnExit := true, savePosOnExit := true, saveSizeOnExit := true,
    saveStateOnExit := true }

/-- A visible window, not in drop-down mode, at (100, 80) with size 800 by 600,
a minimum size of 80 by 16 and one tab that runs a process. -/
def sampleWindow : MainWindow :=
  { props := savingProperties, m_dropMode := false, m_layerWindow := none,
    m_dropLockButton := none, isVisible := true,
    geometry := QRect.ofXYWH 100 80 800 600,
    minimumSize := { wd := 80, ht := 16 },
    maximumSize := { wd := 16777215, ht := 16777215 }, frameLeft := 4, frameTop := 24,
    isMaximized := false, dockState := [1, 2, 3],
    fullscreenAction := some { checked := true, enabled := true },
    dialogs := [], consoleTabulator := { count := 1, holderTerminals := 1,
                                         hasRunningProcess := true },
    calls := [] }

/-- The sample window in drop-down mode, without a layer-shell window. -/
def sampleDropWindow : MainWindow :=
  { sampleWindow with m_dropMode := true, m_dropLockButton := some false }

/-- One screen of 1920 by 1080 whose available geometry starts below a panel of
30 rows. -/
def sampleScreens : Screens :=
  { screenAtCursor := none, primaryScreen := QRect.ofXYWH 0 30 1920 1050 }

/-- A Wayland platform with layer-shell support. -/
def waylandPlatform : Platform :=
  { wayland := true, hasWindowHandle := true, layerShell := true }

/-! ## Tabs, title and new windows -/

/-- Qt's `QSize::isValid`. -/
def QSize.isValid (s : QSize) : Bool := decide (0 ≤ s.wd) && decide (0 ≤ s.ht)

/-- Qt's `QPoint::isNull`. -/
def QPoint.isNull (q : QPoint) : Bool := decide (q.xp = 0) && decide (q.yp = 0)

/-- What mainwindow.cpp asks of a `TerminalConfig` (terminalconfig.cpp is not
part of the two source files): the value of `hasCommand()`, and the directory
handed over with `provideCurrentDirectory`, if any. -/
structure TerminalConfig where
  hasCommand : Bool
  currentDirectory : Option String
deriving DecidableEq, Repr

/-- The call `cfg.provideCurrentDirectory(dir)`. -/
def TerminalConfig.provideCurrentDirectory (cfg : TerminalConfig) (dir : String) :
    TerminalConfig :=
  { cfg with currentDirectory := some dir }

/-- The calls on `consoleTabulator` that create a tab. -/
inductive TabCall where
  | addNewTab (cfg : TerminalConfig)
  | preset4Terminals
  | preset2Vertical
  | preset2Horizontal
deriving DecidableEq, Repr

/-- A `QIcon`: whether it is null, and a key that tells icons apart. -/
structure QIcon where
  isNull : Bool
  cacheKey : Nat
deriving DecidableEq, Repr

/-- The default-constructed `QIcon()`, a null icon. -/
def QIcon.null : QIcon := { isNull := true, cacheKey := 0 }

/-- The calls of `MainWindow::newTerminalWindow` that make a process or a
window. -/
inductive WindowCall where
  | startDetached (program : String) (arguments : List String)
  | newMainWindow (cfg : TerminalConfig) (dropMode : Bool)
  | showNewWindow
deriving DecidableEq, Repr

/-- The calls with which the constructor of `MainWindow` sets up its mode and
its geometry. -/
inductive GeometryCall where
  | enableDropMode
  | resize (s : QSize)
  | move (q : QPoint)
  | restoreState (state : List Nat)
deriving DecidableEq, Repr

namespace MainWindow

/-- `MainWindow::addNewTab`: the calls made on `consoleTabulator`. -/
def addNewTab (cfg : TerminalConfig) (p : Properties) : List TabCall :=
  if cfg.hasCommand then [TabCall.addNewTab cfg]
  else if p.terminalsPreset = 3 then [TabCall.preset4Terminals]
  else if p.terminalsPreset = 2 then [TabCall.preset2Vertical]
  else if p.terminalsPreset = 1 then [TabCall.preset2Horizontal]
  else [TabCall.addNewTab cfg]

/-- `MainWindow::onCurrentTitleChanged`: the title given to `setWindowTitle` and
the icon given to `setWindowIcon`.  `tabText` and `tabIcon` are those of
`consoleTabulator`, `fromTheme` is `QIcon::fromTheme`. -/
def onCurrentTitleChanged (index : Int) (tabText : Int → String) (tabIcon : Int → QIcon)
    (fromTheme : String → QIcon) (p : Properties) : String × QIcon :=
  let title0 : String := ""
  let icon0 : QIcon := QIcon.null
  let title := if -1 ≠ index then tabText index else title0
  let icon := if -1 ≠ index then tabIcon index else icon0
  (if title.isEmpty || !p.changeWindowTitle then "QTerminal" else title,
   if icon.isNull || !p.changeWindowIcon then fromTheme "utilities-terminal" else icon)

/-- The local `cfg` of `MainWindow::newTerminalWindow`: a default-constructed
`TerminalConfig` that is given the working directory of the current terminal
when `terminalHolder()` is not `nullptr`. -/
def newWindowConfig (fresh : TerminalConfig) (holderDirectory : Option String) :
    TerminalConfig :=
  match holderDirectory with
  | some dir => fresh.provideCurrentDirectory dir
  | none => fresh

/-- `MainWindow::newTerminalWindow`.  `fresh` is a default-constructed
`TerminalConfig`, `holderDirectory` the working directory of the current
terminal when `terminalHolder()` is not `nullptr`, `getWorkingDirectory` the
member function of `TerminalConfig`, `profile` the value of
`Properties::Instance()->profile()`. -/
def newTerminalWindow (fresh : TerminalConfig) (holderDirectory : Option String)
    (getWorkingDirectory : TerminalConfig → String) (profile : String)
    (st : MainWindow) : List WindowCall :=
  let cfg := newWindowConfig fresh holderDirectory
  if st.m_dropMode then
    let args := ["-w", getWorkingDirectory cfg]
    let args1 := if !profile.isEmpty then args ++ ["-p", profile] else args
    [WindowCall.startDetached "qterminal" args1]
  else
    [WindowCall.newMainWindow cfg false, WindowCall.showNewWindow]

/-- The part of the constructor `MainWindow::MainWindow` that chooses between
drop-down mode and the stored size, position and state.  `wayland` says whether
the platform name is "wayland". -/
def initGeometry (m_dropMode wayland : Bool) (p : Properties) : List GeometryCall :=
  if m_dropMode then [GeometryCall.enableDropMode]
  else
    let c1 :=
      if p.saveSizeOnExit then
        if p.mainWindowSize.isValid then [GeometryCall.resize p.mainWindowSize] else []
      else if p.fixedWindowSize.isValid then [GeometryCall.resize p.fixedWindowSize]
      else []
    let c2 :=
      if p.savePosOnExit && !p.mainWindowPosition.isNull && !wayland then
        [GeometryCall.move p.mainWindowPosition]
      else []
    let c3 :=
      if p.saveStateOnExit then [GeometryCall.restoreState p.mainWindowState] else []
    c1 ++ c2 ++ c3

end MainWindow

/-! ## The bookmarks file of the preferences dialog -/

/-- Qt's `QPlainTextEdit` with its document: the text and the modified flag of
the document. -/
structure QPlainTextEdit where
  plainText : String
  isModified : Bool
deriving DecidableEq, Repr

/-- The two answers of `QMessageBox::question` with its default buttons. -/
inductive StandardButton where
  | Yes
  | No
deriving DecidableEq, Repr

/-- The widgets of the bookmarks page: the line edit with the path of the file
and the editor with its content. -/
structure BookmarksPage where
  bookmarksLineEdit : QLineEdit
  bookmarkPlainEdit : QPlainTextEdit
deriving DecidableEq, Repr

/-- What the bookmarks functions ask of the build, the file system and the user.
`appDir` is the macro `APP_DIR` (`none` when it is not defined), `configDir` is
`Properties::Instance()->configDir()`, `fileExists` is `QFile::exists`,
`dirIs f d` is `QFileInfo(f).dir() == QDir(d)`, `absoluteFilePath d f` is
`QDir(d).absoluteFilePath(QFileInfo(f).fileName())`, `readAll f` is the content
of `f` when it can be opened for reading, `canWrite f` says whether `f` can be
opened for writing, `answer` is the button the user presses in a question box,
and `fromUtf8` and `toUtf8` are the conversions of `QString`. -/
structure BookmarksEnv where
  appDir : Option String
  configDir : String
  fileExists : String → Bool
  dirIs : String → String → Bool
  absoluteFilePath : String → String → String
  readAll : String → Option (List Nat)
  canWrite : String → Bool
  answer : StandardButton
  fromUtf8 : List Nat → String
  toUtf8 : String → List Nat

/-- What `saveBookmarksFile` does besides changing the widgets: the question
boxes and the warning it shows, and the file it writes. -/
inductive BookmarksCall where
  | questionOverwrite (fname : String)
  | questionNotXml
  | warningCannotWrite (fname : String)
  | write (fname : String) (content : List Nat)
deriving DecidableEq, Repr

namespace PropertiesDialog

/-- The text that `openBookmarksFile` puts into the editor when the file cannot
be opened. -/
def defaultBookmarks : String :=
  "<qterminal>\n  <group name=\"Change Directory\">\n    <command name=\"Home\" value=\"cd $HOME\"/>\n  </group>\n  <group name=\"File Manager\">\n    <command name=\"Open here\" value=\"xdg-open $(pwd)\"/>\n  </group>\n</qterminal>\n"

/-- `PropertiesDialog::openBookmarksFile`. -/
def openBookmarksFile (env : BookmarksEnv) (w : BookmarksPage) : BookmarksPage :=
  let fname := w.bookmarksLineEdit.text
  if fname.isEmpty then w
  else
    let content :=
      match env.readAll fname with
      | none => defaultBookmarks
      | some bytes => env.fromUtf8 bytes
    { w with bookmarkPlainEdit := { plainText := content, isModified := false } }

/-- The first part of `PropertiesDialog::saveBookmarksFile`: the file to write
and the flag `fromAppDir`, from the path in the line edit.  A file that exists
in the directory `APP_DIR` is redirected to the configuration directory. -/
def saveTarget (env : BookmarksEnv) (fname : String) : String × Bool :=
  match env.appDir with
  | none => (fname, false)
  | some appDirStr =>
    if !appDirStr.isEmpty then
      if env.fileExists fname && env.dirIs fname appDirStr then
        if !env.configDir.isEmpty then
          (env.absoluteFilePath env.configDir fname, true)
        else (fname, false)
      else (fname, false)
    else (fname, false)

/-- `PropertiesDialog::saveBookmarksFile`: the widgets afterwards and the calls
made, in order. -/
def saveBookmarksFile (env : BookmarksEnv) (w : BookmarksPage) :
    BookmarksPage × List BookmarksCall :=
  let fname0 := w.bookmarksLineEdit.text
  if fname0.isEmpty then (w, [])
  else
    let fname := (saveTarget env fname0).1
    let fromAppDir := (saveTarget env fname0).2
    if !fromAppDir && !w.bookmarkPlainEdit.isModified && env.fileExists fname then (w, [])
    else
      let asked : StandardButton × List BookmarksCall :=
        if env.fileExists fname then
          if fromAppDir then (env.answer, [BookmarksCall.questionOverwrite fname])
          else if !fname.endsWith ".xml" then (env.answer, [BookmarksCall.questionNotXml])
          else (StandardButton.Yes, [])
        else (StandardButton.Yes, [])
      if asked.1 = StandardButton.No then (w, asked.2)
      else if !env.canWrite fname then
        (w, asked.2 ++ [BookmarksCall.warningCannotWrite fname])
      else
        let w1 :=
          if fromAppDir then { w with bookmarksLineEdit := w.bookmarksLineEdit.setText fname }
          else w
        ({ w1 with bookmarkPlainEdit := { w1.bookmarkPlainEdit with isModified := false } },
          asked.2 ++ [BookmarksCall.write fname (env.toUtf8 w.bookmarkPlainEdit.plainText)])

end PropertiesDialog

/-! ## The history command and the Actions menu -/

/-- The loop behind `QString::split(sep, Qt::SkipEmptyParts)` on the characters
of the string: `cur` holds, in reverse, the characters of the token being
read; a separator ends the token, and an empty token is dropped. -/
def splitSkipEmptyAux (sep : Char) : List Char → List Char → List String
  | [], cur => if cur = [] then [] else [String.mk cur.reverse]
  | c :: cs, cur =>
    if c = sep then
      if cur = [] then splitSkipEmptyAux sep cs []
      else String.mk cur.reverse :: splitSkipEmptyAux sep cs []
    else splitSkipEmptyAux sep cs (c :: cur)

/-- Qt's `QString::split(sep, Qt::SkipEmptyParts)` for a single character. -/
def splitSkipEmpty (s : String) (sep : Char) : List String :=
  splitSkipEmptyAux sep s.data []

/-- What `handleHistory` does besides reading the settings: it has the terminal
save its history into the file, and it starts a detached process. -/
inductive HistoryCall where
  | saveHistory (fn : String)
  | startDetached (command : String) (arguments : List String)
deriving DecidableEq, Repr

/-- `MainWindow::handleHistory`.  `dir` is the writable cache location, `pid` the
process id of the application, `canOpen fn` says whether the file `fn` can be
opened for writing. -/
def MainWindow.handleHistory (dir : String) (pid : Nat) (canOpen : String → Bool)
    (p : Properties) : List HistoryCall :=
  let fn := dir ++ "/qterminal.history." ++ toString pid
  if !canOpen fn then []
  else
    let args := splitSkipEmpty p.handleHistoryCommand ' '
    match args with
    | [] => [HistoryCall.saveHistory fn]
    | command :: rest =>
      [HistoryCall.saveHistory fn, HistoryCall.startDetached command (rest ++ [fn])]

/-- The three check functions that `setup_ActionsMenu_Actions` stores as the data
of an action. -/
inductive Check where
  | checkTabs
  | checkSubterminals
  | checkHasIndexedTab
deriving DecidableEq, Repr

/-- The names under which `setup_ActionsMenu_Actions` registers the entries of
the Actions menu (the macros of config.h, and "Tab 1" to "Tab 10"), together
with the separators and the action of the "Go to" menu, which have no name. -/
inductive ActionName where
  | CLEAR_TERMINAL
  | TAB_NEXT
  | TAB_PREV
  | TAB_PREV_HISTORY
  | TAB_NEXT_HISTORY
  | MOVE_LEFT
  | MOVE_RIGHT
  | Tab (i : Nat)
  | SPLIT_HORIZONTAL
  | SPLIT_VERTICAL
  | SUB_COLLAPSE
  | SUB_TOP
  | SUB_BOTTOM
  | SUB_LEFT
  | SUB_RIGHT
  | FIND
  | HANDLE_HISTORY
  | separator (k : Nat)
  | menuGoTo
deriving DecidableEq, Repr

/-- A `QAction` of a menu: its enabled flag, its data (a check function or
nothing), its property "tab", and the actions of its menu when it has one. -/
inductive MenuAction where
  | mk (name : ActionName) (isEnabled : Bool) (data : Option Check) (tab : Int)
      (menu : Option (List MenuAction))

/-- What the check functions ask of `consoleTabulator`: the number of
`TermWidgetHolder` children of the tab widget and the number of `TermWidget`
children of the current holder. -/
structure TabCounts where
  holders : Int
  terminals : Int
deriving DecidableEq, Repr

/-- The call `check(*this, action)` for the three check functions
`hasMultipleTabs`, `hasMultipleSubterminals` and `hasIndexedTab`. -/
def Check.run (c : Check) (w : TabCounts) (tab : Int) : Bool :=
  match c with
  | Check.checkTabs => decide (w.holders > 1)
  | Check.checkSubterminals => decide (w.terminals > 1)
  | Check.checkHasIndexedTab => decide (w.holders ≥ tab)

mutual

/-- The body of the loop of the lambda `enableActions` in
`MainWindow::updateDisabledActions`, for one action. -/
def MainWindow.enableAction (w : TabCounts) : MenuAction → MenuAction
  | MenuAction.mk name isEnabled data tab menu =>
    match data with
    | some check => MenuAction.mk name (check.run w tab) data tab menu
    | none =>
      match menu with
      | some actions =>
        MenuAction.mk name isEnabled data tab (some (MainWindow.enableActions w actions))
      | none => MenuAction.mk name isEnabled data tab menu

/-- The lambda `enableActions` of `MainWindow::updateDisabledActions`. -/
def MainWindow.enableActions (w : TabCounts) : List MenuAction → List MenuAction
  | [] => []
  | a :: as => MainWindow.enableAction w a :: MainWindow.enableActions w as

end

mutual

/-- The enabled flag of the action registered under `n`, looked for in one
action and in the actions of its menu. -/
def MenuAction.findEnabled (n : ActionName) : MenuAction → Option Bool
  | MenuAction.mk name isEnabled _ _ menu =>
    if name = n then some isEnabled
    else
      match menu with
      | some actions => MenuAction.findEnabledIn n actions
      | none => none

/-- The enabled flag of the action registered under `n`, looked for in a list of
actions and in their menus. -/
def MenuAction.findEnabledIn (n : ActionName) : List MenuAction → Option Bool
  | [] => none
  | a :: as =>
    match MenuAction.findEnabled n a with
    | some b => some b
    | none => MenuAction.findEnabledIn n as

end

/-- The action "Tab i" of the "Go to" menu, as `setup_ActionsMenu_Actions` makes
it: the check `hasIndexedTab` as data and the property "tab" set to `i`. -/
def goToAction (en : ActionName → Bool) (i : Nat) : MenuAction :=
  MenuAction.mk (ActionName.Tab i) (en (ActionName.Tab i)) (some Check.checkHasIndexedTab) i none

/-- The actions of the menu "Go to": "Tab 1" to "Tab 10". -/
def goToMenu (en : ActionName → Bool) : List MenuAction :=
  [goToAction en 1, goToAction en 2, goToAction en 3, goToAction en 4, goToAction en 5,
   goToAction en 6, goToAction en 7, goToAction en 8, goToAction en 9, goToAction en 10]

/-- An entry of the Actions menu without a menu of its own. -/
def plainAction (en : ActionName → Bool) (n : ActionName) (data : Option Check) : MenuAction :=
  MenuAction.mk n (en n) data 0 none

/-- The actions of `menu_Actions` in the order in which
`setup_ActionsMenu_Actions` adds them, where `en` gives the enabled flag each
action has before `updateDisabledActions` runs. -/
def actionsMenu (en : ActionName → Bool) : List MenuAction :=
  [plainAction en ActionName.CLEAR_TERMINAL none,
   plainAction en (ActionName.separator 0) none,
   plainAction en ActionName.TAB_NEXT (some Check.checkTabs),
   plainAction en ActionName.TAB_PREV (some Check.checkTabs),
   plainAction en ActionName.TAB_PREV_HISTORY (some Check.checkTabs),
   plainAction en ActionName.TAB_NEXT_HISTORY (some Check.checkTabs),
   plainAction en ActionName.MOVE_LEFT (some Check.checkTabs),
   plainAction en ActionName.MOVE_RIGHT (some Check.checkTabs),
   MenuAction.mk ActionName.menuGoTo (en ActionName.menuGoTo) none 0 (some (goToMenu en)),
   plainAction en (ActionName.separator 1) none,
   plainAction en ActionName.SPLIT_HORIZONTAL none,
   plainAction en ActionName.SPLIT_VERTICAL none,
   plainAction en ActionName.SUB_COLLAPSE (some Check.checkSubterminals),
   plainAction en ActionName.SUB_TOP (some Check.checkSubterminals),
   plainAction en ActionName.SUB_BOTTOM (some Check.checkSubterminals),
   plainAction en ActionName.SUB_LEFT (some Check.checkSubterminals),
   plainAction en ActionName.SUB_RIGHT (some Check.checkSubterminals),
   plainAction en (ActionName.separator 2) none,
   plainAction en (ActionName.separator 3) none,
   plainAction en ActionName.FIND none,
   plainAction en ActionName.HANDLE_HISTORY none]

/-- `MainWindow::updateDisabledActions` on the Actions menu. -/
def MainWindow.updateDisabledActions (w : TabCounts) (en : ActionName → Bool) :
    List MenuAction :=
  MainWindow.enableActions w (actionsMenu en)

/-- A build with the application directory "/usr/share/qterminal" and a file
system in which that directory holds "bookmarks.xml", nothing else exists and
every file can be written; the user answers No. -/
def sampleBookmarksEnv : BookmarksEnv :=
  { appDir := some "/usr/share/qterminal",
    configDir := "/home/u/.config/qterminal.org",
    fileExists := fun f => f == "/usr/share/qterminal/bookmarks.xml",
    dirIs := fun f d => f == "/usr/share/qterminal/bookmarks.xml" && d == "/usr/share/qterminal",
    absoluteFilePath := fun d _ => d ++ "/bookmarks.xml",
    readAll := fun f => if f == "/usr/share/qterminal/bookmarks.xml" then some [60, 97, 47, 62]
      else none,
    canWrite := fun _ => true,
    answer := StandardButton.No,
    fromUtf8 := fun bytes => String.mk (bytes.map Char.ofNat),
    toUtf8 := fun s => s.data.map Char.toNat }

/-- A bookmarks page whose path is the file of the application directory and
whose editor holds a modified text. -/
def sampleBookmarksPage : BookmarksPage :=
  { bookmarksLineEdit := { text := "/usr/share/qterminal/bookmarks.xml" },
    bookmarkPlainEdit := { plainText := "<a/>", isModified := true } }

/-- The widgets of the dialog as a form could leave them: every box unchecked,
"Unlimited history" chosen, and a spin box for the delay of the mouse pointer
that ranges from 0 to 60 seconds. -/
def sampleDialog : PropertiesDialog :=
  { fixedTabWidthCheckBox := { isChecked := false },
    closeTabButtonCheckBox := { isChecked := false },
    closeTabOnMiddleClickCheckBox := { isChecked := false },
    keybCursorBlinkCheckBox := { isChecked := false },
    hideTabBarCheckBox := { isChecked := false }, boldIntenseCheckBox := { isChecked := false },
    menuAccelCheckBox := { isChecked := false }, showMenuCheckBox := { isChecked := false },
    borderlessCheckBox := { isChecked := false },
    disableBracketedPasteModeCheckBox := { isChecked := false },
    highlightCurrentCheckBox := { isChecked := false },
    focusOnMoueOverCheckBox := { isChecked := false },
    showTerminalSizeHintCheckBox := { isChecked := false },
    askOnExitCheckBox := { isChecked := false }, savePosOnExitCheckBox := { isChecked := false },
    saveSizeOnExitCheckBox := { isChecked := false },
    saveStateOnExitCheckBox := { isChecked := false }, useCwdCheckBox := { isChecked := false },
    openNewTabRightToActiveTabCheckBox := { isChecked := false },
    dropShowOnStartCheckBox := { isChecked := false },
    dropKeepOpenCheckBox := { isChecked := false },
    useBookmarksCheckBox := { isChecked := false },
    changeWindowTitleCheckBox := { isChecked := false },
    changeWindowIconCheckBox := { isChecked := false },
    enabledBidiSupportCheckBox := { isChecked := false },
    useFontBoxDrawingCharsCheckBox := { isChecked := false },
    trimPastedTrailingNewlinesCheckBox := { isChecked := false },
    confirmMultilinePasteCheckBox := { isChecked := false },
    audibleBellCheckBox := { isChecked := false }, audibleBellCheckBoxEnabled := true,
    historyButtons := { exclusive := true, historyLimited := false, historyUnlimited := true },
    terminalMarginSpinBox := { minimum := 0, maximum := 9999, value := 0 },
    termTransparencyBox := { minimum := 0, maximum := 9999, value := 0 },
    fixedTabWidthSpinBox := { minimum := 0, maximum := 9999, value := 0 },
    historyLimitedTo := { minimum := 0, maximum := 9999, value := 0 },
    dropHeightSpinBox := { minimum := 0, maximum := 9999, value := 0 },
    dropWidthSpinBox := { minimum := 0, maximum := 9999, value := 0 },
    fixedWithSpinBox := { minimum := 0, maximum := 9999, value := 0 },
    fixedHeightSpinBox := { minimum := 0, maximum := 9999, value := 0 },
    mouseAutoHideSpinBox := { minimum := 0, maximum := 60, value := 0 },
    terminalPresetComboBox := { count := 4, currentIndex := 0 },
    backgroundImageLineEdit := { text := "" }, wordCharactersLineEdit := { text := "" },
    handleHistoryLineEdit := { text := "" } }

/-! ## The shortcuts table of the preferences dialog -/

/-- Qt's `QStringList::join(sep)` for a single character: the strings in a row
with `sep` between two neighbours. -/
def joinStrings (sep : Char) : List String → String
  | [] => ""
  | [s] => s
  | s :: t :: rest => s ++ String.singleton sep ++ joinStrings sep (t :: rest)

/-- The loop behind `QString::split(sep)` with empty parts kept, on the
characters of the string: `cur` holds, in reverse, the characters of the part
being read; a separator ends the part, and so does the end of the string. -/
def splitKeepEmptyAux (sep : Char) : List Char → List Char → List String
  | [], cur => [String.mk cur.reverse]
  | c :: cs, cur =>
    if c = sep then String.mk cur.reverse :: splitKeepEmptyAux sep cs []
    else splitKeepEmptyAux sep cs (c :: cur)

/-- Qt's `QString::split(sep)` for a single character (empty parts are kept, so
the empty string gives one empty part). -/
def splitKeepEmpty (s : String) (sep : Char) : List String :=
  splitKeepEmptyAux sep s.data []

/-- The key sequences that `MainWindow::setup_Action` gives an action with
`setShortcuts`: the text that `Properties::getShortcut` returns is split at
'|', and every part is read by `QKeySequence::fromString`.  `K` is
`QKeySequence`. -/
def MainWindow.setup_Action {K : Type} (fromString : String → K) (shortcutText : String) :
    List K :=
  let sequences := splitKeepEmpty shortcutText '|'
  sequences.map fromString

namespace PropertiesDialog

/-- One pass of the loop of `PropertiesDialog::setupShortcuts`: the text of the
item of the second column for an action with the key sequences `shortcuts`.
`K` is `QKeySequence` and `toString` is
`QKeySequence::toString(QKeySequence::NativeText)`. -/
def setupShortcutsItem {K : Type} (toString : K → String) (shortcuts : List K) : String :=
  let sequenceStrings := shortcuts.map toString
  joinStrings '|' sequenceStrings

/-- One pass of the loop of `PropertiesDialog::applyShortcuts` for an action
whose item was found: the key sequences given to `setShortcuts`, from the text
of the item.  `fromString s` is `QKeySequence(s, QKeySequence::NativeText)`. -/
def applyShortcutsItem {K : Type} (fromString : String → K) (text : String) : List K :=
  let sequences := splitKeepEmpty text '|'
  sequences.map fromString

/-- `PropertiesDialog::setupShortcuts` for one action, from its call of
`rebuildActions` on: the action is made anew by `setup_Action` from the stored
text `shortcutText`, and the item gets the text of the key sequences it has
then.  `fromString` is `QKeySequence::fromString`, `toString` is
`QKeySequence::toString(QKeySequence::NativeText)`. -/
def setupShortcutsText {K : Type} (fromString : String → K) (toString : K → String)
    (shortcutText : String) : String :=
  setupShortcutsItem toString (MainWindow.setup_Action fromString shortcutText)

end PropertiesDialog

/-! ## Theorems -/

open MainWindow

/-! ### The main window -/

theorem closePrompt_fst (ans : PromptAnswer) (st : MainWindow) :
    (closePrompt ans st).1 = ans.yes := by
  unfold closePrompt
  cases ans.yes <;> simp

theorem closePrompt_calls (ans : PromptAnswer) (st : MainWindow) :
    (closePrompt ans st).2.calls = st.calls ++ [Call.closePromptExec] := by
  unfold closePrompt record
  cases ans.yes <;> simp

theorem removeAllTabs_props (n : Nat) (st : MainWindow) :
    (removeAllTabs n st).props = st.props := by
  induction n generalizing st with
  | zero => rfl
  | succ k ih => simp [removeAllTabs, ih]

theorem removeAllTabs_count_closePrompt (n : Nat) (st : MainWindow) :
    (removeAllTabs n st).calls.count Call.closePromptExec
      = st.calls.count Call.closePromptExec := by
  induction n generalizing st with
  | zero => rfl
  | succ k ih => simp [removeAllTabs, ih, List.count_append]

theorem saveGeometry_calls (st : MainWindow) : (saveGeometry st).calls = st.calls := by
  unfold saveGeometry
  split <;> simp
  split <;> split <;> split <;> simp

theorem closeCondition_fst (ans : PromptAnswer) (st : MainWindow) :
    (closeCondition ans st).1 =
      (!st.props.askOnExit || st.consoleTabulator.count == 0
        || st.consoleTabulator.holderTerminals == 0
        || !st.consoleTabulator.hasRunningProcess || ans.yes) := by
  unfold closeCondition
  cases st.props.askOnExit <;> cases hc : (st.consoleTabulator.count == 0)
    <;> cases ht : (st.consoleTabulator.holderTerminals == 0)
    <;> cases st.consoleTabulator.hasRunningProcess
    <;> simp [closePrompt_fst]

theorem closeCondition_calls (ans : PromptAnswer) (st : MainWindow) :
    (closeCondition ans st).2.calls =
      if (st.props.askOnExit && !(st.consoleTabulator.count == 0)
          && !(st.consoleTabulator.holderTerminals == 0)
          && st.consoleTabulator.hasRunningProcess) = true
      then st.calls ++ [Call.closePromptExec] else st.calls := by
  unfold closeCondition
  cases st.props.askOnExit <;> cases hc : (st.consoleTabulator.count == 0)
    <;> cases ht : (st.consoleTabulator.holderTerminals == 0)
    <;> cases st.consoleTabulator.hasRunningProcess
    <;> simp [closePrompt_calls]

theorem closeEvent_fst (ans : PromptAnswer) (st : MainWindow) :
    (closeEvent ans st).1 = (closeCondition ans st).1 := by
  unfold closeEvent
  cases h : (closeCondition ans st).1 <;> simp [h]

theorem closeEvent_count_closePrompt (ans : PromptAnswer) (st : MainWindow) :
    (closeEvent ans st).2.calls.count Call.closePromptExec
      = (closeCondition ans st).2.calls.count Call.closePromptExec := by
  unfold closeEvent
  cases h : (closeCondition ans st).1
  · simp [h]
  · simp [h, removeAllTabs_count_closePrompt, record, rebuildActions, saveGeometry_calls,
      List.count_append]

/-- C1. `closeEvent` ends accepted exactly when `askOnExit` is off, or there is
no tab, or the current tab holds no terminal, or no process is running, or the
user answers Yes; otherwise it ends ignored.  The prompt runs once when the
first four conditions all fail, and not at all when one of them holds. -/
theorem closeEvent_accepted_iff (ans : PromptAnswer) (st : MainWindow) :
    ((closeEvent ans st).1 = true ↔
      (st.props.askOnExit = false ∨ st.consoleTabulator.count = 0
        ∨ st.consoleTabulator.holderTerminals = 0
        ∨ st.consoleTabulator.hasRunningProcess = false ∨ ans.yes = true))
    ∧ ((closeEvent ans st).1 = false ↔
      (st.props.askOnExit = true ∧ st.consoleTabulator.count ≠ 0
        ∧ st.consoleTabulator.holderTerminals ≠ 0
        ∧ st.consoleTabulator.hasRunningProcess = true ∧ ans.yes = false))
    ∧ ((closeEvent ans st).2.calls.count Call.closePromptExec
        = st.calls.count Call.closePromptExec +
          (if st.props.askOnExit = true ∧ st.consoleTabulator.count ≠ 0
              ∧ st.consoleTabulator.holderTerminals ≠ 0
              ∧ st.consoleTabulator.hasRunningProcess = true then 1 else 0)) := by
  rw [closeEvent_fst, closeCondition_fst, closeEvent_count_closePrompt, closeCondition_calls]
  cases st.props.askOnExit <;> cases hc : (st.consoleTabulator.count == 0)
    <;> cases ht : (st.consoleTabulator.holderTerminals == 0)
    <;> cases st.consoleTabulator.hasRunningProcess
    <;> cases ans.yes
    <;> simp_all [List.count_append]

/-- The state in which `closeEvent` reaches its body: that before the call, up
to `askOnExit` and the record of calls. -/
theorem closeCondition_snd (ans : PromptAnswer) (st : MainWindow) :
    ∃ b cs, (closeCondition ans st).2
      = { st with props := { st.props with askOnExit := b }, calls := cs } := by
  have hst : ∃ b cs, st = { st with props := { st.props with askOnExit := b }, calls := cs } :=
    ⟨st.props.askOnExit, st.calls, rfl⟩
  have hp : ∃ b cs, (closePrompt ans st).2
      = { st with props := { st.props with askOnExit := b }, calls := cs } := by
    unfold closePrompt record
    cases ans.yes
    · exact ⟨st.props.askOnExit, _, rfl⟩
    · exact ⟨_, _, rfl⟩
  unfold closeCondition
  split
  · exact hst
  · split
    · exact hst
    · split
      · exact hst
      · split
        · exact hst
        · exact hp

theorem saveGeometry_fields (st : MainWindow) :
    (saveGeometry st).props.mainWindowPosition
        = (if (!st.m_dropMode && st.props.savePosOnExit) = true
            then st.pos else st.props.mainWindowPosition)
    ∧ (saveGeometry st).props.mainWindowSize
        = (if (!st.m_dropMode && st.props.saveSizeOnExit) = true
            then st.size else st.props.mainWindowSize)
    ∧ (saveGeometry st).props.windowMaximized
        = (if (!st.m_dropMode && st.props.saveSizeOnExit) = true
            then st.isMaximized else st.props.windowMaximized)
    ∧ (saveGeometry st).props.mainWindowState
        = (if (!st.m_dropMode && st.props.saveStateOnExit) = true
            then st.saveState else st.props.mainWindowState) := by
  unfold saveGeometry
  cases h0 : st.m_dropMode <;> cases h1 : st.props.savePosOnExit
    <;> cases h2 : st.props.saveSizeOnExit <;> cases h3 : st.props.saveStateOnExit
    <;> simp [h0, h1, h2, h3, pos, size, saveState]

/-- The settings after `closeEvent`, for the stored position, size and state. -/
theorem closeEvent_geometry_fields (ans : PromptAnswer) (st : MainWindow) :
    (closeEvent ans st).2.props.mainWindowPosition
        = (if ((closeEvent ans st).1 && (!st.m_dropMode && st.props.savePosOnExit)) = true
            then st.pos else st.props.mainWindowPosition)
    ∧ (closeEvent ans st).2.props.mainWindowSize
        = (if ((closeEvent ans st).1 && (!st.m_dropMode && st.props.saveSizeOnExit)) = true
            then st.size else st.props.mainWindowSize)
    ∧ (closeEvent ans st).2.props.windowMaximized
        = (if ((closeEvent ans st).1 && (!st.m_dropMode && st.props.saveSizeOnExit)) = true
            then st.isMaximized else st.props.windowMaximized)
    ∧ (closeEvent ans st).2.props.mainWindowState
        = (if ((closeEvent ans st).1 && (!st.m_dropMode && st.props.saveStateOnExit)) = true
            then st.saveState else st.props.mainWindowState) := by
  obtain ⟨b, cs, hs⟩ := closeCondition_snd ans st
  unfold closeEvent
  cases hok : (closeCondition ans st).1
  · simp [hok, hs]
  · simp only [hok, if_true, removeAllTabs_props, Bool.true_and]
    have h := saveGeometry_fields ((closeCondition ans st).2.record Call.disconnectBookmarksDock)
    rw [hs] at h ⊢
    exact h

/-- C2. In drop-down mode `closeEvent` leaves the stored position, size,
maximized flag and dock state of `Properties` as they were, whether the event
ends accepted or ignored and whatever the three save flags are. -/
theorem closeEvent_dropMode_keeps_geometry (ans : PromptAnswer) (st : MainWindow)
    (hdrop : st.m_dropMode = true) :
    (closeEvent ans st).2.props.mainWindowPosition = st.props.mainWindowPosition
    ∧ (closeEvent ans st).2.props.mainWindowSize = st.props.mainWindowSize
    ∧ (closeEvent ans st).2.props.windowMaximized = st.props.windowMaximized
    ∧ (closeEvent ans st).2.props.mainWindowState = st.props.mainWindowState := by
  have h := closeEvent_geometry_fields ans st
  simp only [hdrop, Bool.not_true, Bool.false_and, Bool.and_false, Bool.false_eq_true,
    if_false] at h
  exact h

/-- The drop-down sample window has all three save flags set and a geometry that
differs from the stored one; the close event ends accepted and stores nothing. -/
theorem closeEvent_dropMode_keeps_geometry_witness :
    sampleDropWindow.m_dropMode = true
    ∧ (closeEvent { yes := true, dontAskAgain := false } sampleDropWindow).1 = true
    ∧ sampleDropWindow.props.savePosOnExit = true
    ∧ sampleDropWindow.pos ≠ sampleDropWindow.props.mainWindowPosition
    ∧ ((closeEvent { yes := true, dontAskAgain := false } sampleDropWindow).2.props.mainWindowPosition
          = sampleDropWindow.props.mainWindowPosition
      ∧ (closeEvent { yes := true, dontAskAgain := false } sampleDropWindow).2.props.mainWindowSize
          = sampleDropWindow.props.mainWindowSize
      ∧ (closeEvent { yes := true, dontAskAgain := false } sampleDropWindow).2.props.windowMaximized
          = sampleDropWindow.props.windowMaximized
      ∧ (closeEvent { yes := true, dontAskAgain := false } sampleDropWindow).2.props.mainWindowState
          = sampleDropWindow.props.mainWindowState) :=
  ⟨rfl, rfl, rfl, by decide,
    closeEvent_dropMode_keeps_geometry { yes := true, dontAskAgain := false } sampleDropWindow rfl⟩

/-- C3. Outside drop-down mode an accepted `closeEvent` stores `pos()` in
`mainWindowPosition` when `savePosOnExit` is set, `size()` in `mainWindowSize`
and `isMaximized()` in `windowMaximized` when `saveSizeOnExit` is set, and
`saveState()` in `mainWindowState` when `saveStateOnExit` is set; a field whose
flag is not set keeps its value. -/
theorem closeEvent_saves_geometry (ans : PromptAnswer) (st : MainWindow)
    (hdrop : st.m_dropMode = false) (hacc : (closeEvent ans st).1 = true) :
    (closeEvent ans st).2.props.mainWindowPosition
        = (if st.props.savePosOnExit = true then st.pos else st.props.mainWindowPosition)
    ∧ (closeEvent ans st).2.props.mainWindowSize
        = (if st.props.saveSizeOnExit = true then st.size else st.props.mainWindowSize)
    ∧ (closeEvent ans st).2.props.windowMaximized
        = (if st.props.saveSizeOnExit = true then st.isMaximized
            else st.props.windowMaximized)
    ∧ (closeEvent ans st).2.props.mainWindowState
        = (if st.props.saveStateOnExit = true then st.saveState
            else st.props.mainWindowState) := by
  have h := closeEvent_geometry_fields ans st
  simp only [hdrop, hacc, Bool.not_false, Bool.true_and] at h
  exact h

/-- The sample window is closed with the answer Yes: position (96, 56), size 800
by 600 and the dock state are stored. -/
theorem closeEvent_saves_geometry_witness :
    sampleWindow.m_dropMode = false
    ∧ (closeEvent { yes := true, dontAskAgain := false } sampleWindow).1 = true
    ∧ (closeEvent { yes := true, dontAskAgain := false } sampleWindow).2.props.mainWindowPosition
        = { xp := 96, yp := 56 }
    ∧ (closeEvent { yes := true, dontAskAgain := false } sampleWindow).2.props.mainWindowSize
        = { wd := 800, ht := 600 }
    ∧ ((closeEvent { yes := true, dontAskAgain := false } sampleWindow).2.props.mainWindowPosition
        = (if sampleWindow.props.savePosOnExit = true then sampleWindow.pos
            else sampleWindow.props.mainWindowPosition)
      ∧ (closeEvent { yes := true, dontAskAgain := false } sampleWindow).2.props.mainWindowSize
        = (if sampleWindow.props.saveSizeOnExit = true then sampleWindow.size
            else sampleWindow.props.mainWindowSize)
      ∧ (closeEvent { yes := true, dontAskAgain := false } sampleWindow).2.props.windowMaximized
        = (if sampleWindow.props.saveSizeOnExit = true then sampleWindow.isMaximized
            else sampleWindow.props.windowMaximized)
      ∧ (closeEvent { yes := true, dontAskAgain := false } sampleWindow).2.props.mainWindowState
        = (if sampleWindow.props.saveStateOnExit = true then sampleWindow.saveState
            else sampleWindow.props.mainWindowState)) :=
  ⟨rfl, rfl, by decide, by decide,
    closeEvent_saves_geometry { yes := true, dontAskAgain := false } sampleWindow rfl rfl⟩

/-- Truncating division by two leaves a remainder of -1, 0 or 1. -/
theorem tdiv_two_remainder (w : Int) :
    -1 ≤ w - 2 * Int.tdiv w 2 ∧ w - 2 * Int.tdiv w 2 ≤ 1 := by
  rcases Int.le_total 0 w with h | h
  · rw [Int.tdiv_eq_ediv h (by decide)]
    omega
  · have h1 : Int.tdiv w 2 = -((-w) / 2) := by
      have h2 : Int.tdiv (-(-w)) 2 = -(Int.tdiv (-w) 2) := Int.neg_tdiv (-w) 2
      rw [Int.neg_neg] at h2
      rw [h2, Int.tdiv_eq_ediv (by omega) (by decide)]
    rw [h1]
    omega

theorem realignRect_eq (d : QRect) (p : Properties) :
    realignRect d p =
      { x1 := d.center.xp - Int.tdiv (Int.tdiv (d.width * p.dropWidth) 100 - 1) 2,
        y1 := d.top,
        x2 := d.center.xp - Int.tdiv (Int.tdiv (d.width * p.dropWidth) 100 - 1) 2
                + (Int.tdiv (d.width * p.dropWidth) 100 - 1),
        y2 := d.top + (Int.tdiv (d.height * p.dropHeight) 100 - 1) } := by
  have e : ∀ x w : Int, x + w - 1 - x = w - 1 := by
    intro x w
    omega
  simp only [realignRect, QRect.ofXYWH, QRect.moveCenter, QRect.moveTop, QRect.x, QRect.y,
    QRect.top, QRect.mk.injEq, e, true_and]
  omega

theorem ofXYWH_self (g : QRect) : QRect.ofXYWH g.x g.y g.width g.height = g := by
  obtain ⟨x1, y1, x2, y2⟩ := g
  simp only [QRect.ofXYWH, QRect.x, QRect.y, QRect.width, QRect.height, QRect.mk.injEq,
    true_and]
  omega

theorem realign_requests_rect (scr : Screens) (st : MainWindow)
    (hd : st.m_dropMode = true) (hl : st.m_layerWindow = none)
    (hg : realignRect (desktop scr) st.props ≠ st.geometry) :
    realign scr st = st.setGeometry (realignRect (desktop scr) st.props) := by
  unfold realign
  simp [hd, hl, hg]

/-- C4. In drop-down mode without a layer-shell window `realign` computes a
rectangle whose width is `desktop.width * dropWidth / 100` and whose height is
`desktop.height * dropHeight / 100`, whose top edge is the top of the available
geometry, and whose left edge is the centre column less half of `width - 1`,
so that the centre column of the available geometry is at most one column away
from the middle of the rectangle (`moveCenter`, then `moveTop`).  When the
window does not have that geometry yet, `realign` passes the rectangle to
`setGeometry`; the window then takes its top-left corner and its size bounded
by the maximum and the minimum size of the window, hence the rectangle itself
when its size lies between the two.  When the window has that geometry,
nothing changes.  Outside drop-down mode, or with a layer-shell window,
`realign` changes nothing. -/
theorem realign_geometry (scr : Screens) (st : MainWindow) :
    ((realignRect (desktop scr) st.props).width
          = Int.tdiv ((desktop scr).width * st.props.dropWidth) 100
      ∧ (realignRect (desktop scr) st.props).height
          = Int.tdiv ((desktop scr).height * st.props.dropHeight) 100
      ∧ (realignRect (desktop scr) st.props).top = (desktop scr).top
      ∧ (realignRect (desktop scr) st.props).left
          = (desktop scr).center.xp
            - Int.tdiv ((realignRect (desktop scr) st.props).width - 1) 2
      ∧ (((realignRect (desktop scr) st.props).right - (desktop scr).center.xp)
          - ((desktop scr).center.xp - (realignRect (desktop scr) st.props).left)).natAbs ≤ 1
      ∧ realignRect (desktop scr) st.props
          = ((QRect.ofXYWH (desktop scr).x (desktop scr).y
                (Int.tdiv ((desktop scr).width * st.props.dropWidth) 100)
                (Int.tdiv ((desktop scr).height * st.props.dropHeight) 100)).moveCenter
              (desktop scr).center).moveTop (desktop scr).top)
    ∧ (st.m_dropMode = true ∧ st.m_layerWindow = none →
      (realignRect (desktop scr) st.props ≠ st.geometry →
        (realign scr st).calls
            = st.calls ++ [Call.realignSetGeometry (realignRect (desktop scr) st.props)]
        ∧ (realign scr st).geometry
            = QRect.ofXYWH (realignRect (desktop scr) st.props).x
                (realignRect (desktop scr) st.props).y
                (max (min (realignRect (desktop scr) st.props).width st.maximumSize.wd)
                  st.minimumSize.wd)
                (max (min (realignRect (desktop scr) st.props).height st.maximumSize.ht)
                  st.minimumSize.ht))
      ∧ (realignRect (desktop scr) st.props = st.geometry → realign scr st = st)
      ∧ (st.minimumSize.wd ≤ (realignRect (desktop scr) st.props).width
          ∧ (realignRect (desktop scr) st.props).width ≤ st.maximumSize.wd
          ∧ st.minimumSize.ht ≤ (realignRect (desktop scr) st.props).height
          ∧ (realignRect (desktop scr) st.props).height ≤ st.maximumSize.ht →
        (realign scr st).geometry = realignRect (desktop scr) st.props))
    ∧ (st.m_dropMode = false ∨ st.m_layerWindow ≠ none → realign scr st = st) := by
  have hw : (realignRect (desktop scr) st.props).width
      = Int.tdiv ((desktop scr).width * st.props.dropWidth) 100 := by
    rw [realignRect_eq]
    simp only [QRect.width]
    omega
  refine ⟨⟨hw, ?_, ?_, ?_, ?_, rfl⟩, ?_, ?_⟩
  · rw [realignRect_eq]
    simp only [QRect.height, QRect.top]
    omega
  · rw [realignRect_eq]
    rfl
  · rw [hw, realignRect_eq]
    rfl
  · rw [realignRect_eq]
    simp only [QRect.right, QRect.left]
    have h := tdiv_two_remainder (Int.tdiv ((desktop scr).width * st.props.dropWidth) 100 - 1)
    omega
  · rintro ⟨hd, hl⟩
    have hsame : realignRect (desktop scr) st.props = st.geometry → realign scr st = st := by
      intro hg
      unfold realign
      simp [hd, hl, hg]
    refine ⟨?_, hsame, ?_⟩
    · intro hg
      rw [realign_requests_rect scr st hd hl hg]
      exact ⟨rfl, rfl⟩
    · rintro ⟨h1, h2, h3, h4⟩
      by_cases hg : realignRect (desktop scr) st.props = st.geometry
      · rw [hsame hg, hg]
      · rw [realign_requests_rect scr st hd hl hg]
        simp only [setGeometry, max_eq_left, min_eq_left, h1, h2, h3, h4]
        exact ofXYWH_self _
  · rintro (hd | hl)
    · simp [realign, hd]
    · unfold realign
      cases hlw : st.m_layerWindow with
      | none => exact absurd hlw hl
      | some lw => simp

/-- On a screen whose available geometry is 1920 by 1050 from (0, 30), with a
drop-down size of 70 by 50 percent, the rectangle spans the columns 288 to 1631
and the rows 30 to 554, and the window takes it.  With a drop-down width of 0
percent the rectangle has the width 0 and the window gets its minimum width of
80.  The window outside drop-down mode is left alone. -/
theorem realign_geometry_witness :
    (sampleDropWindow.m_dropMode = true ∧ sampleDropWindow.m_layerWindow = none)
    ∧ realignRect (desktop sampleScreens) sampleDropWindow.props
        = { x1 := 288, y1 := 30, x2 := 1631, y2 := 554 }
    ∧ (realign sampleScreens sampleDropWindow).geometry
        = realignRect (desktop sampleScreens) sampleDropWindow.props
    ∧ (realign sampleScreens sampleDropWindow).calls
        = sampleDropWindow.calls
          ++ [Call.realignSetGeometry (realignRect (desktop sampleScreens) sampleDropWindow.props)]
    ∧ (realignRect (desktop sampleScreens)
        { sampleProperties with dropWidth := 0 }).width = 0
    ∧ (realign sampleScreens
        { sampleDropWindow with props := { sampleProperties with dropWidth := 0 } }).geometry.width
        = 80
    ∧ realign sampleScreens sampleWindow = sampleWindow :=
  ⟨⟨rfl, rfl⟩, by decide,
    ((realign_geometry sampleScreens sampleDropWindow).2.1 ⟨rfl, rfl⟩).2.2
      ⟨by decide, by decide, by decide, by decide⟩,
    (((realign_geometry sampleScreens sampleDropWindow).2.1 ⟨rfl, rfl⟩).1 (by decide)).1,
    by decide, by decide,
    (realign_geometry sampleScreens sampleWindow).2.2 (Or.inl rfl)⟩

theorem hide_ne (st : MainWindow) : st.hide ≠ st := by
  intro h
  have hc : st.hide.calls.length = st.calls.length := by rw [h]
  simp [hide] at hc

/-- C5. On a `WindowDeactivate` event `MainWindow::event` hides the window
exactly when the window is in drop-down mode, `dropKeepOpen` is off, the
application has no active window and the layer-shell window, if there is one,
is on the overlay layer; in every other case the event changes nothing.  So
with `dropKeepOpen` on, or outside drop-down mode, the window is not hidden. -/
theorem event_deactivate_hides_iff (ev : WindowEvent) (st : MainWindow)
    (hev : ev.type = EventType.WindowDeactivate) :
    (event ev st = st.hide ↔
      (st.m_dropMode = true ∧ st.props.dropKeepOpen = false ∧ ev.noActiveWindow = true
        ∧ ∀ lw, st.m_layerWindow = some lw → lw.layer = Layer.LayerOverlay))
    ∧ (event ev st = st ↔
      ¬ (st.m_dropMode = true ∧ st.props.dropKeepOpen = false ∧ ev.noActiveWindow = true
        ∧ ∀ lw, st.m_layerWindow = some lw → lw.layer = Layer.LayerOverlay))
    ∧ (st.props.dropKeepOpen = true ∨ st.m_dropMode = false → event ev st = st) := by
  have key : event ev st =
      if (st.m_dropMode = true ∧ st.props.dropKeepOpen = false ∧ ev.noActiveWindow = true
        ∧ ∀ lw, st.m_layerWindow = some lw → lw.layer = Layer.LayerOverlay)
      then st.hide else st := by
    unfold event
    simp only [hev]
    cases hd : st.m_dropMode <;> cases hk : st.props.dropKeepOpen
      <;> cases hn : ev.noActiveWindow <;> cases hl : st.m_layerWindow
      <;> simp
  have hne := hide_ne st
  refine ⟨?_, ?_, ?_⟩
  · rw [key]
    split
    · simp_all
    · constructor
      · intro h
        exact absurd h.symm hne
      · intro h
        contradiction
  · rw [key]
    split
    · constructor
      · intro h
        exact absurd h hne
      · intro h
        contradiction
    · simp_all
  · intro h
    rw [key]
    rcases h with h | h <;> simp [h]

/-- The drop-down sample window loses focus while no window of the application is
active: it is hidden.  With `dropKeepOpen` set it stays as it is. -/
theorem event_deactivate_hides_iff_witness :
    ({ type := EventType.WindowDeactivate, noActiveWindow := true,
       modalDialogLayerShell := false } : WindowEvent).type = EventType.WindowDeactivate
    ∧ sampleDropWindow.isVisible = true
    ∧ event { type := EventType.WindowDeactivate, noActiveWindow := true,
              modalDialogLayerShell := false } sampleDropWindow = sampleDropWindow.hide
    ∧ event { type := EventType.WindowDeactivate, noActiveWindow := true,
              modalDialogLayerShell := false }
          (sampleDropWindow.setKeepOpen true) = sampleDropWindow.setKeepOpen true :=
  ⟨rfl, rfl,
    (event_deactivate_hides_iff
      { type := EventType.WindowDeactivate, noActiveWindow := true,
        modalDialogLayerShell := false }
      sampleDropWindow rfl).1.mpr ⟨rfl, rfl, rfl, fun _ h => nomatch h⟩,
    (event_deactivate_hides_iff
      { type := EventType.WindowDeactivate, noActiveWindow := true,
        modalDialogLayerShell := false }
      (sampleDropWindow.setKeepOpen true) rfl).2.2 (Or.inl rfl)⟩

theorem hasModalDialog_iff (ds : List QDialog) :
    hasModalDialog ds = true ↔ ∃ d ∈ ds, d.isModal = true := by
  induction ds with
  | nil => simp [hasModalDialog]
  | cons d ds ih =>
    unfold hasModalDialog
    by_cases hd : d.isModal = true
    · simp [hd]
    · simp [hd, ih]

/-- C6. With a modal child dialog `showHide` changes nothing: visibility,
geometry, the FULLSCREEN action and every other part of the state stay as they
were, and no call is made. -/
theorem showHide_modal_noop (scr : Screens) (st : MainWindow)
    (hmodal : ∃ d ∈ st.dialogs, d.isModal = true) :
    showHide scr st = st := by
  unfold showHide
  rw [(hasModalDialog_iff st.dialogs).mpr hmodal]
  rfl

/-- The hidden drop-down window with a modal dialog behind a plain one is left
alone by `showHide`. -/
theorem showHide_modal_noop_witness :
    (∃ d ∈ [({ isModal := false } : QDialog), { isModal := true }], d.isModal = true)
    ∧ showHide sampleScreens
        { sampleDropWindow with
          isVisible := false, dialogs := [{ isModal := false }, { isModal := true }] }
      = { sampleDropWindow with
          isVisible := false, dialogs := [{ isModal := false }, { isModal := true }] } :=
  ⟨by decide,
    showHide_modal_noop sampleScreens
      { sampleDropWindow with
        isVisible := false, dialogs := [{ isModal := false }, { isModal := true }] }
      (by decide)⟩

/-- What `realign` leaves alone: everything but the geometry and the record of
calls. -/
theorem realign_frame (scr : Screens) (st : MainWindow) :
    (realign scr st).isVisible = st.isVisible
    ∧ (realign scr st).fullscreenAction = st.fullscreenAction
    ∧ (realign scr st).dialogs = st.dialogs
    ∧ (realign scr st).m_dropMode = st.m_dropMode
    ∧ (realign scr st).m_layerWindow = st.m_layerWindow
    ∧ (realign scr st).props = st.props := by
  unfold realign
  cases hd : st.m_dropMode
  · simp [hd]
  · cases hl : st.m_layerWindow with
    | some lw => simp [hd, hl]
    | none =>
      by_cases hg : realignRect (desktop scr) st.props = st.geometry
      · simp [hg, hd, hl]
      · simp [hg, hd, hl, setGeometry]

theorem hasModalDialog_false (ds : List QDialog) (hno : ∀ d ∈ ds, d.isModal = false) :
    hasModalDialog ds = false := by
  cases h : hasModalDialog ds
  · rfl
  · obtain ⟨d, hd, hm⟩ := (hasModalDialog_iff ds).mp h
    rw [hno d hd] at hm
    exact absurd hm (by decide)

theorem showHide_dialogs (scr : Screens) (st : MainWindow) :
    (showHide scr st).dialogs = st.dialogs := by
  unfold showHide
  cases hasModalDialog st.dialogs
  · cases st.isVisible
    · cases st.fullscreenAction <;> simp [record, «show», (realign_frame scr _).2.2.1]
    · simp [hide]
  · simp

theorem showHide_hidden (scr : Screens) (st : MainWindow)
    (hm : hasModalDialog st.dialogs = false) (hv : st.isVisible = false) :
    (showHide scr st).isVisible = true
    ∧ (showHide scr st).fullscreenAction
        = st.fullscreenAction.map (fun a => a.setChecked false) := by
  unfold showHide
  cases hf : st.fullscreenAction
    <;> simp [hm, hv, hf, record, «show», (realign_frame scr _).2.1]

theorem showHide_visible (scr : Screens) (st : MainWindow)
    (hm : hasModalDialog st.dialogs = false) (hv : st.isVisible = true) :
    showHide scr st = st.hide := by
  unfold showHide
  simp [hm, hv]

/-- C7. Without a modal child dialog `showHide` toggles the visibility: a visible
window is hidden and a hidden window is shown, so two calls in a row give back
the visibility of the start.  When a hidden window is shown, the FULLSCREEN
action, if it is registered, is unchecked afterwards. -/
theorem showHide_toggles (scr scr2 : Screens) (st : MainWindow)
    (hno : ∀ d ∈ st.dialogs, d.isModal = false) :
    (showHide scr st).isVisible = !st.isVisible
    ∧ (showHide scr2 (showHide scr st)).isVisible = st.isVisible
    ∧ (st.isVisible = true → showHide scr st = st.hide)
    ∧ (st.isVisible = false →
        (showHide scr st).fullscreenAction
            = st.fullscreenAction.map (fun a => a.setChecked false)
        ∧ ∀ a, (showHide scr st).fullscreenAction = some a → a.checked = false) := by
  have hm := hasModalDialog_false st.dialogs hno
  have hm2 : hasModalDialog (showHide scr st).dialogs = false := by
    rw [showHide_dialogs]
    exact hm
  have h1 : (showHide scr st).isVisible = !st.isVisible := by
    cases hv : st.isVisible
    · simpa using (showHide_hidden scr st hm hv).1
    · rw [showHide_visible scr st hm hv]
      rfl
  refine ⟨h1, ?_, showHide_visible scr st hm, ?_⟩
  · cases hv : st.isVisible
    · have hv2 : (showHide scr st).isVisible = true := by simpa [hv] using h1
      rw [showHide_visible scr2 _ hm2 hv2]
      rfl
    · have hv2 : (showHide scr st).isVisible = false := by simpa [hv] using h1
      exact (showHide_hidden scr2 _ hm2 hv2).1
  · intro hv
    have h2 := (showHide_hidden scr st hm hv).2
    refine ⟨h2, ?_⟩
    intro a ha
    rw [h2] at ha
    cases hf : st.fullscreenAction with
    | none => simp [hf] at ha
    | some b =>
      simp only [hf, Option.map_some', Option.some.injEq] at ha
      rw [← ha]
      rfl

/-- The hidden drop-down window with a checked FULLSCREEN action is shown with the
action unchecked, and a second call hides it again. -/
theorem showHide_toggles_witness :
    (∀ d ∈ ({ sampleDropWindow with isVisible := false } : MainWindow).dialogs,
        d.isModal = false)
    ∧ ({ sampleDropWindow with isVisible := false } : MainWindow).fullscreenAction
        = some { checked := true, enabled := true }
    ∧ (showHide sampleScreens { sampleDropWindow with isVisible := false }).isVisible
        = !({ sampleDropWindow with isVisible := false } : MainWindow).isVisible
    ∧ (showHide sampleScreens
        (showHide sampleScreens { sampleDropWindow with isVisible := false })).isVisible
        = ({ sampleDropWindow with isVisible := false } : MainWindow).isVisible
    ∧ (showHide sampleScreens { sampleDropWindow with isVisible := false }).fullscreenAction
        = some { checked := false, enabled := true } :=
  ⟨by decide, rfl,
    (showHide_toggles sampleScreens sampleScreens
      { sampleDropWindow with isVisible := false } (by decide)).1,
    (showHide_toggles sampleScreens sampleScreens
      { sampleDropWindow with isVisible := false } (by decide)).2.1,
    by decide⟩

/-- The invariant of the drop-down window on Wayland: drop-down mode, and a
layer-shell window on the overlay or on the top layer. -/
theorem event_layer_invariant (ev : WindowEvent) (st : MainWindow)
    (hd : st.m_dropMode = true)
    (hl : ∃ lw, st.m_layerWindow = some lw
      ∧ (lw.layer = Layer.LayerOverlay ∨ lw.layer = Layer.LayerTop)) :
    (event ev st).m_dropMode = true
    ∧ ∃ lw, (event ev st).m_layerWindow = some lw
      ∧ (lw.layer = Layer.LayerOverlay ∨ lw.layer = Layer.LayerTop) := by
  obtain ⟨lw, hlw, hlay⟩ := hl
  unfold event
  cases ev.type <;> cases st.props.dropKeepOpen <;> cases ev.noActiveWindow
    <;> cases ev.modalDialogLayerShell <;> rcases hlay with h | h
    <;> simp [hd, hlw, h, hide]

theorem events_layer_invariant (evs : List WindowEvent) (st : MainWindow)
    (hd : st.m_dropMode = true)
    (hl : ∃ lw, st.m_layerWindow = some lw
      ∧ (lw.layer = Layer.LayerOverlay ∨ lw.layer = Layer.LayerTop)) :
    (events evs st).m_dropMode = true
    ∧ ∃ lw, (events evs st).m_layerWindow = some lw
      ∧ (lw.layer = Layer.LayerOverlay ∨ lw.layer = Layer.LayerTop) := by
  induction evs generalizing st with
  | nil => exact ⟨hd, hl⟩
  | cons ev evs ih =>
    have h := event_layer_invariant ev st hd hl
    exact ih (event ev st) h.1 h.2

theorem event_unblocked_layer (ev : WindowEvent) (st : MainWindow)
    (hev : ev.type = EventType.WindowUnblocked) (hd : st.m_dropMode = true)
    (hl : ∃ lw, st.m_layerWindow = some lw) :
    ∃ lw, (event ev st).m_layerWindow = some lw ∧ lw.layer = Layer.LayerOverlay := by
  obtain ⟨lw, hlw⟩ := hl
  unfold event
  simp only [hev, hd, hlw, if_true]
  exact ⟨_, rfl, rfl⟩

theorem enableDropMode_layer (pf : Platform) (scr : Screens) (st : MainWindow)
    (hw : pf.wayland = true) (hh : pf.hasWindowHandle = true) (hs : pf.layerShell = true) :
    (enableDropMode pf scr st).m_dropMode = st.m_dropMode
    ∧ ∃ lw, (enableDropMode pf scr st).m_layerWindow = some lw
      ∧ lw.layer = Layer.LayerOverlay := by
  unfold enableDropMode
  simp only [hw, hh, hs, if_true]
  refine ⟨?_, ?_⟩
  · rw [(realign_frame scr _).2.2.2.1]
    simp only [record, setKeepOpen]
  · rw [(realign_frame scr _).2.2.2.2.1]
    simp only [record, setKeepOpen]
    exact ⟨_, rfl, rfl⟩

/-- C8. A drop-down window gets its layer-shell window from `enableDropMode` on
the overlay layer.  After every sequence of events handled by
`MainWindow::event` (`WindowBlocked` and `WindowUnblocked` among them) the
layer is the overlay layer or the top layer, and right after a
`WindowUnblocked` event it is the overlay layer. -/
theorem dropdown_layer_overlay_or_top (pf : Platform) (scr : Screens) (st0 : MainWindow)
    (evs : List WindowEvent)
    (hd : st0.m_dropMode = true) (hw : pf.wayland = true)
    (hh : pf.hasWindowHandle = true) (hs : pf.layerShell = true) :
    (∃ lw, (enableDropMode pf scr st0).m_layerWindow = some lw
      ∧ lw.layer = Layer.LayerOverlay)
    ∧ (∃ lw, (events evs (enableDropMode pf scr st0)).m_layerWindow = some lw
      ∧ (lw.layer = Layer.LayerOverlay ∨ lw.layer = Layer.LayerTop))
    ∧ (∀ ev : WindowEvent, ev.type = EventType.WindowUnblocked →
        ∃ lw, (event ev (events evs (enableDropMode pf scr st0))).m_layerWindow = some lw
          ∧ lw.layer = Layer.LayerOverlay) := by
  have h0 := enableDropMode_layer pf scr st0 hw hh hs
  have hd1 : (enableDropMode pf scr st0).m_dropMode = true := by rw [h0.1, hd]
  have hl1 : ∃ lw, (enableDropMode pf scr st0).m_layerWindow = some lw
      ∧ (lw.layer = Layer.LayerOverlay ∨ lw.layer = Layer.LayerTop) := by
    obtain ⟨lw, h1, h2⟩ := h0.2
    exact ⟨lw, h1, Or.inl h2⟩
  have hinv := events_layer_invariant evs (enableDropMode pf scr st0) hd1 hl1
  refine ⟨h0.2, hinv.2, ?_⟩
  intro ev hev
  obtain ⟨lw, h1, _⟩ := hinv.2
  exact event_unblocked_layer ev _ hev hinv.1 ⟨lw, h1⟩

/-- On Wayland the drop-down sample window is blocked by a dialog with a
layer-shell window, which puts it on the top layer; the next `WindowUnblocked`
event puts it on the overlay layer again. -/
theorem dropdown_layer_overlay_or_top_witness :
    (sampleDropWindow.m_dropMode = true ∧ waylandPlatform.wayland = true
      ∧ waylandPlatform.hasWindowHandle = true ∧ waylandPlatform.layerShell = true)
    ∧ ((events [{ type := EventType.WindowBlocked, noActiveWindow := false,
                  modalDialogLayerShell := true }]
          (enableDropMode waylandPlatform sampleScreens sampleDropWindow)).m_layerWindow.map
        (fun lw => lw.layer)) = some Layer.LayerTop
    ∧ (∃ lw, (event { type := EventType.WindowUnblocked, noActiveWindow := false,
                      modalDialogLayerShell := false }
          (events [{ type := EventType.WindowBlocked, noActiveWindow := false,
                     modalDialogLayerShell := true }]
            (enableDropMode waylandPlatform sampleScreens sampleDropWindow))).m_layerWindow
          = some lw ∧ lw.layer = Layer.LayerOverlay) :=
  ⟨⟨rfl, rfl, rfl, rfl⟩, by decide,
    (dropdown_layer_overlay_or_top waylandPlatform sampleScreens sampleDropWindow
      [{ type := EventType.WindowBlocked, noActiveWindow := false,
         modalDialogLayerShell := true }] rfl rfl rfl rfl).2.2
      { type := EventType.WindowUnblocked, noActiveWindow := false,
        modalDialogLayerShell := false } rfl⟩

/-! ### The preferences dialog -/

open PropertiesDialog

/-- C9. After `apply` the stored `mouseAutoHideDelay` is never 0: it is 1000
times the value of the spin box when that value is positive, and -1 when the
value is zero or negative. -/
theorem apply_mouseAutoHideDelay (haveLibcanberra : Bool) (d : PropertiesDialog)
    (p : Properties) :
    (apply haveLibcanberra d p).mouseAutoHideDelay ≠ 0
    ∧ (0 < d.mouseAutoHideSpinBox.value →
        (apply haveLibcanberra d p).mouseAutoHideDelay = 1000 * d.mouseAutoHideSpinBox.value)
    ∧ (d.mouseAutoHideSpinBox.value ≤ 0 →
        (apply haveLibcanberra d p).mouseAutoHideDelay = -1) := by
  have h : (apply haveLibcanberra d p).mouseAutoHideDelay
      = applyAutoDelay d.mouseAutoHideSpinBox.value := rfl
  rw [h]
  have hpos : ∀ v : Int, 0 < v → applyAutoDelay v = 1000 * v := by
    intro v hv
    simp only [applyAutoDelay, gt_iff_lt, hv, if_true]
    omega
  have hneg : ∀ v : Int, v ≤ 0 → applyAutoDelay v = -1 := by
    intro v hv
    have hn : ¬ (0 < v) := by omega
    simp only [applyAutoDelay, gt_iff_lt, hn, if_false]
  refine ⟨?_, hpos _, hneg _⟩
  rcases Int.lt_or_le 0 d.mouseAutoHideSpinBox.value with hv | hv
  · rw [hpos _ hv]
    omega
  · rw [hneg _ hv]
    decide

/-- The two history buttons after the constructor: `historyLimited` is checked
exactly when the setting is on, whatever the form made of the two buttons. -/
theorem historyButtons_init (h : HistoryButtons) (b : Bool) :
    ((h.setLimitedChecked b).setUnlimitedChecked (!b)).historyLimited = b := by
  obtain ⟨e, l, u⟩ := h
  cases e <;> cases l <;> cases u <;> cases b <;> rfl

/-- C10. Filling the dialog from `Properties` and reading it back with `apply`,
with no edit in between, gives every check-box setting the value it had;
`audibleBell` keeps its value when built with libcanberra and is switched off
otherwise. -/
theorem apply_init_checkboxes (haveLibcanberra : Bool) (ui : PropertiesDialog)
    (parent : Option ParentWindow) (p : Properties) :
    (apply haveLibcanberra (init haveLibcanberra ui parent p) p).askOnExit = p.askOnExit
    ∧ (apply haveLibcanberra (init haveLibcanberra ui parent p) p).savePosOnExit
        = p.savePosOnExit
    ∧ (apply haveLibcanberra (init haveLibcanberra ui parent p) p).saveSizeOnExit
        = p.saveSizeOnExit
    ∧ (apply haveLibcanberra (init haveLibcanberra ui parent p) p).saveStateOnExit
        = p.saveStateOnExit
    ∧ (apply haveLibcanberra (init haveLibcanberra ui parent p) p).useCWD = p.useCWD
    ∧ (apply haveLibcanberra (init haveLibcanberra ui parent p) p).m_openNewTabRightToActiveTab
        = p.m_openNewTabRightToActiveTab
    ∧ (apply haveLibcanberra (init haveLibcanberra ui parent p) p).fixedTabWidth
        = p.fixedTabWidth
    ∧ (apply haveLibcanberra (init haveLibcanberra ui parent p) p).showCloseTabButton
        = p.showCloseTabButton
    ∧ (apply haveLibcanberra (init haveLibcanberra ui parent p) p).closeTabOnMiddleClick
        = p.closeTabOnMiddleClick
    ∧ (apply haveLibcanberra (init haveLibcanberra ui parent p) p).keyboardCursorBlink
        = p.keyboardCursorBlink
    ∧ (apply haveLibcanberra (init haveLibcanberra ui parent p) p).hideTabBarWithOneTab
        = p.hideTabBarWithOneTab
    ∧ (apply haveLibcanberra (init haveLibcanberra ui parent p) p).boldIntense = p.boldIntense
    ∧ (apply haveLibcanberra (init haveLibcanberra ui parent p) p).noMenubarAccel
        = p.noMenubarAccel
    ∧ (apply haveLibcanberra (init haveLibcanberra ui parent p) p).menuVisible = p.menuVisible
    ∧ (apply haveLibcanberra (init haveLibcanberra ui parent p) p).borderless = p.borderless
    ∧ (apply haveLibcanberra (init haveLibcanberra ui parent p) p).m_disableBracketedPasteMode
        = p.m_disableBracketedPasteMode
    ∧ (apply haveLibcanberra (init haveLibcanberra ui parent p) p).highlightCurrentTerminal
        = p.highlightCurrentTerminal
    ∧ (apply haveLibcanberra (init haveLibcanberra ui parent p) p).focusOnMoueOver
        = p.focusOnMoueOver
    ∧ (apply haveLibcanberra (init haveLibcanberra ui parent p) p).showTerminalSizeHint
        = p.showTerminalSizeHint
    ∧ (apply haveLibcanberra (init haveLibcanberra ui parent p) p).historyLimited
        = p.historyLimited
    ∧ (apply haveLibcanberra (init haveLibcanberra ui parent p) p).dropShowOnStart
        = p.dropShowOnStart
    ∧ (apply haveLibcanberra (init haveLibcanberra ui parent p) p).dropKeepOpen
        = p.dropKeepOpen
    ∧ (apply haveLibcanberra (init haveLibcanberra ui parent p) p).useBookmarks
        = p.useBookmarks
    ∧ (apply haveLibcanberra (init haveLibcanberra ui parent p) p).changeWindowTitle
        = p.changeWindowTitle
    ∧ (apply haveLibcanberra (init haveLibcanberra ui parent p) p).changeWindowIcon
        = p.changeWindowIcon
    ∧ (apply haveLibcanberra (init haveLibcanberra ui parent p) p).enabledBidiSupport
        = p.enabledBidiSupport
    ∧ (apply haveLibcanberra (init haveLibcanberra ui parent p) p).useFontBoxDrawingChars
        = p.useFontBoxDrawingChars
    ∧ (apply haveLibcanberra (init haveLibcanberra ui parent p) p).trimPastedTrailingNewlines
        = p.trimPastedTrailingNewlines
    ∧ (apply haveLibcanberra (init haveLibcanberra ui parent p) p).confirmMultilinePaste
        = p.confirmMultilinePaste
    ∧ (apply haveLibcanberra (init haveLibcanberra ui parent p) p).audibleBell
        = (haveLibcanberra && p.audibleBell) := by
  refine ⟨rfl, rfl, rfl, rfl, rfl, rfl, rfl, rfl, rfl, rfl, rfl, rfl, rfl, rfl, rfl, rfl, rfl,
    rfl, rfl, ?_, rfl, rfl, rfl, rfl, rfl, rfl, rfl, rfl, rfl, ?_⟩
  · exact historyButtons_init ui.historyButtons p.historyLimited
  · cases haveLibcanberra <;> rfl

/-! ### Fixed size, tabs, title, new windows and start-up geometry -/

/-- C11. After `apply` the stored `fixedWindowSize` is the pair of the maximum of
the fixed-width spin box and 300 and the maximum of the fixed-height spin box
and 200; so its width is at least 300 and its height at least 200. -/
theorem apply_fixedWindowSize (haveLibcanberra : Bool) (d : PropertiesDialog)
    (p : Properties) :
    (apply haveLibcanberra d p).fixedWindowSize
        = { wd := max d.fixedWithSpinBox.value 300, ht := max d.fixedHeightSpinBox.value 200 }
    ∧ 300 ≤ (apply haveLibcanberra d p).fixedWindowSize.wd
    ∧ 200 ≤ (apply haveLibcanberra d p).fixedWindowSize.ht := by
  have h : (apply haveLibcanberra d p).fixedWindowSize
      = { wd := max d.fixedWithSpinBox.value 300,
          ht := max d.fixedHeightSpinBox.value 200 } := rfl
  rw [h]
  exact ⟨rfl, le_max_right _ _, le_max_right _ _⟩

/-- C12. `addNewTab` makes exactly one tab-creating call.  With a command it is
a single-terminal tab for the configuration, whatever the preset; without a
command it is the preset of four terminals for `terminalsPreset` 3, the two
vertical terminals for 2, the two horizontal terminals for 1, and a
single-terminal tab for every other value. -/
theorem addNewTab_one_call (cfg : TerminalConfig) (p : Properties) :
    (MainWindow.addNewTab cfg p).length = 1
    ∧ (cfg.hasCommand = true → MainWindow.addNewTab cfg p = [TabCall.addNewTab cfg])
    ∧ (cfg.hasCommand = false ∧ p.terminalsPreset = 3 →
        MainWindow.addNewTab cfg p = [TabCall.preset4Terminals])
    ∧ (cfg.hasCommand = false ∧ p.terminalsPreset = 2 →
        MainWindow.addNewTab cfg p = [TabCall.preset2Vertical])
    ∧ (cfg.hasCommand = false ∧ p.terminalsPreset = 1 →
        MainWindow.addNewTab cfg p = [TabCall.preset2Horizontal])
    ∧ (cfg.hasCommand = false ∧ p.terminalsPreset ≠ 3 ∧ p.terminalsPreset ≠ 2
          ∧ p.terminalsPreset ≠ 1 →
        MainWindow.addNewTab cfg p = [TabCall.addNewTab cfg]) := by
  unfold MainWindow.addNewTab
  refine ⟨?_, ?_, ?_, ?_, ?_, ?_⟩
  · split
    · rfl
    · split
      · rfl
      · split
        · rfl
        · split <;> rfl
  · intro h
    simp [h]
  · rintro ⟨h, h3⟩
    simp [h, h3]
  · rintro ⟨h, h2⟩
    simp [h, h2]
  · rintro ⟨h, h1⟩
    simp [h, h1]
  · rintro ⟨h, h3, h2, h1⟩
    simp [h, h3, h2, h1]

/-- With a command and the preset 3 one single-terminal tab is added; without a
command the preset 3 gives the four terminals. -/
theorem addNewTab_one_call_witness :
    MainWindow.addNewTab { hasCommand := true, currentDirectory := none }
        { sampleProperties with terminalsPreset := 3 }
      = [TabCall.addNewTab { hasCommand := true, currentDirectory := none }]
    ∧ MainWindow.addNewTab { hasCommand := false, currentDirectory := none }
        { sampleProperties with terminalsPreset := 3 }
      = [TabCall.preset4Terminals] :=
  ⟨(addNewTab_one_call { hasCommand := true, currentDirectory := none }
      { sampleProperties with terminalsPreset := 3 }).2.1 rfl,
    (addNewTab_one_call { hasCommand := false, currentDirectory := none }
      { sampleProperties with terminalsPreset := 3 }).2.2.1 ⟨rfl, rfl⟩⟩

/-- C13. `onCurrentTitleChanged` gives the window the text of the tab as title
when the index is not -1, the text is not empty and `changeWindowTitle` is on,
and the title "QTerminal" in every other case.  It gives the window the icon of
the tab when the index is not -1, the icon is not null and `changeWindowIcon`
is on, and the themed icon "utilities-terminal" in every other case. -/
theorem onCurrentTitleChanged_title_icon (index : Int) (tabText : Int → String)
    (tabIcon : Int → QIcon) (fromTheme : String → QIcon) (p : Properties) :
    ((index ≠ -1 ∧ (tabText index).isEmpty = false ∧ p.changeWindowTitle = true) →
      (onCurrentTitleChanged index tabText tabIcon fromTheme p).1 = tabText index)
    ∧ (¬ (index ≠ -1 ∧ (tabText index).isEmpty = false ∧ p.changeWindowTitle = true) →
      (onCurrentTitleChanged index tabText tabIcon fromTheme p).1 = "QTerminal")
    ∧ ((index ≠ -1 ∧ (tabIcon index).isNull = false ∧ p.changeWindowIcon = true) →
      (onCurrentTitleChanged index tabText tabIcon fromTheme p).2 = tabIcon index)
    ∧ (¬ (index ≠ -1 ∧ (tabIcon index).isNull = false ∧ p.changeWindowIcon = true) →
      (onCurrentTitleChanged index tabText tabIcon fromTheme p).2
        = fromTheme "utilities-terminal") := by
  unfold onCurrentTitleChanged
  by_cases hi : index = -1
  · have hi2 : ¬ ((-1 : Int) ≠ index) := fun h => h hi.symm
    have he : ("" : String).isEmpty = true := rfl
    refine ⟨?_, ?_, ?_, ?_⟩ <;> intro h <;> simp [hi, he, QIcon.null] at h ⊢
  · have hi2 : (-1 : Int) ≠ index := fun h => hi h.symm
    cases ht : (tabText index).isEmpty <;> cases hc : p.changeWindowTitle
      <;> cases hn : (tabIcon index).isNull <;> cases hw : p.changeWindowIcon
      <;> simp [hi, hi2, ht, hc, hn, hw]

/-- The tab "bash" with a usable icon and both settings on gives the title "bash"
and the icon of the tab; the index -1 gives "QTerminal" and the themed icon. -/
theorem onCurrentTitleChanged_title_icon_witness :
    (onCurrentTitleChanged 0 (fun _ => "bash") (fun _ => { isNull := false, cacheKey := 7 })
        (fun _ => { isNull := false, cacheKey := 1 })
        { sampleProperties with changeWindowTitle := true, changeWindowIcon := true }).1
      = (fun _ => "bash") (0 : Int)
    ∧ (onCurrentTitleChanged (-1) (fun _ => "bash")
        (fun _ => { isNull := false, cacheKey := 7 })
        (fun _ => { isNull := false, cacheKey := 1 })
        { sampleProperties with changeWindowTitle := true, changeWindowIcon := true }).1
      = "QTerminal" :=
  ⟨(onCurrentTitleChanged_title_icon 0 (fun _ => "bash")
      (fun _ => { isNull := false, cacheKey := 7 })
      (fun _ => { isNull := false, cacheKey := 1 })
      { sampleProperties with changeWindowTitle := true, changeWindowIcon := true }).1
      ⟨by decide, by decide, rfl⟩,
    (onCurrentTitleChanged_title_icon (-1) (fun _ => "bash")
      (fun _ => { isNull := false, cacheKey := 7 })
      (fun _ => { isNull := false, cacheKey := 1 })
      { sampleProperties with changeWindowTitle := true, changeWindowIcon := true }).2.1
      (fun h => h.1 rfl)⟩

/-- C14. In drop-down mode `newTerminalWindow` creates no `MainWindow`: its only
call starts the detached process "qterminal" with the arguments "-w" and the
working directory, followed by "-p" and the profile exactly when the profile
name is not empty.  Outside drop-down mode it creates one `MainWindow` that is
not in drop-down mode, shows it, and starts no process. -/
theorem newTerminalWindow_calls (fresh : TerminalConfig) (holderDirectory : Option String)
    (getWorkingDirectory : TerminalConfig → String) (profile : String) (st : MainWindow) :
    (st.m_dropMode = true →
      newTerminalWindow fresh holderDirectory getWorkingDirectory profile st
          = [WindowCall.startDetached "qterminal"
              (["-w", getWorkingDirectory (newWindowConfig fresh holderDirectory)]
                ++ (if profile.isEmpty = false then ["-p", profile] else []))]
      ∧ ∀ cfg d, WindowCall.newMainWindow cfg d
          ∉ newTerminalWindow fresh holderDirectory getWorkingDirectory profile st)
    ∧ (st.m_dropMode = false →
      newTerminalWindow fresh holderDirectory getWorkingDirectory profile st
          = [WindowCall.newMainWindow (newWindowConfig fresh holderDirectory) false,
             WindowCall.showNewWindow]
      ∧ ∀ prog args, WindowCall.startDetached prog args
          ∉ newTerminalWindow fresh holderDirectory getWorkingDirectory profile st) := by
  unfold newTerminalWindow
  constructor
  · intro hd
    cases hp : profile.isEmpty <;> simp [hd, hp]
  · intro hd
    simp [hd]

/-- The drop-down sample window with the profile "work" starts
`qterminal -w /home/u -p work`; the sample window outside drop-down mode opens a
window for the directory of the current terminal. -/
theorem newTerminalWindow_calls_witness :
    sampleDropWindow.m_dropMode = true ∧ sampleWindow.m_dropMode = false
    ∧ newTerminalWindow { hasCommand := false, currentDirectory := none } (some "/tmp")
        (fun _ => "/home/u") "work" sampleDropWindow
      = [WindowCall.startDetached "qterminal" ["-w", "/home/u", "-p", "work"]]
    ∧ newTerminalWindow { hasCommand := false, currentDirectory := none } (some "/tmp")
        (fun _ => "/home/u") "" sampleDropWindow
      = [WindowCall.startDetached "qterminal" ["-w", "/home/u"]]
    ∧ newTerminalWindow { hasCommand := false, currentDirectory := none } (some "/tmp")
        (fun _ => "/home/u") "work" sampleWindow
      = [WindowCall.newMainWindow { hasCommand := false, currentDirectory := some "/tmp" }
            false, WindowCall.showNewWindow] :=
  ⟨rfl, rfl,
    ((newTerminalWindow_calls { hasCommand := false, currentDirectory := none } (some "/tmp")
      (fun _ => "/home/u") "work" sampleDropWindow).1 rfl).1,
    ((newTerminalWindow_calls { hasCommand := false, currentDirectory := none } (some "/tmp")
      (fun _ => "/home/u") "" sampleDropWindow).1 rfl).1,
    ((newTerminalWindow_calls { hasCommand := false, currentDirectory := none } (some "/tmp")
      (fun _ => "/home/u") "work" sampleWindow).2 rfl).1⟩

/-- C15. A window constructed outside drop-down mode is resized to
`mainWindowSize` exactly when `saveSizeOnExit` is set and that size is valid,
and to `fixedWindowSize` exactly when `saveSizeOnExit` is not set and that size
is valid; with `saveSizeOnExit` set no other size is applied.  It is moved, to
`mainWindowPosition`, exactly when `savePosOnExit` is set, the stored position
is not (0, 0) and the platform is not Wayland.  Its state is restored, from
`mainWindowState`, exactly when `saveStateOnExit` is set.  In drop-down mode
the only call is `enableDropMode`. -/
theorem initGeometry_calls (wayland : Bool) (p : Properties) :
    (p.saveSizeOnExit = true → ∀ s, GeometryCall.resize s ∈ initGeometry false wayland p
        ↔ (s = p.mainWindowSize ∧ p.mainWindowSize.isValid = true))
    ∧ (p.saveSizeOnExit = false → ∀ s, GeometryCall.resize s ∈ initGeometry false wayland p
        ↔ (s = p.fixedWindowSize ∧ p.fixedWindowSize.isValid = true))
    ∧ (∀ q, GeometryCall.move q ∈ initGeometry false wayland p
        ↔ (q = p.mainWindowPosition ∧ p.savePosOnExit = true
            ∧ p.mainWindowPosition.isNull = false ∧ wayland = false))
    ∧ (∀ b, GeometryCall.restoreState b ∈ initGeometry false wayland p
        ↔ (b = p.mainWindowState ∧ p.saveStateOnExit = true))
    ∧ GeometryCall.enableDropMode ∉ initGeometry false wayland p
    ∧ initGeometry true wayland p = [GeometryCall.enableDropMode] := by
  unfold initGeometry
  refine ⟨?_, ?_, ?_, ?_, ?_, ?_⟩
  · intro h s
    cases hv : p.mainWindowSize.isValid
      <;> cases hp : (p.savePosOnExit && !p.mainWindowPosition.isNull && !wayland)
      <;> cases hs : p.saveStateOnExit <;> simp [h, hv, hp, hs]
  · intro h s
    cases hv : p.fixedWindowSize.isValid
      <;> cases hp : (p.savePosOnExit && !p.mainWindowPosition.isNull && !wayland)
      <;> cases hs : p.saveStateOnExit <;> simp [h, hv, hp, hs]
  · intro q
    cases h1 : p.saveSizeOnExit <;> cases hv : p.mainWindowSize.isValid
      <;> cases hf : p.fixedWindowSize.isValid
      <;> cases hp : p.savePosOnExit <;> cases hn : p.mainWindowPosition.isNull
      <;> cases wayland
      <;> cases hs : p.saveStateOnExit <;> simp [h1, hv, hf, hp, hn, hs]
  · intro b
    cases h1 : p.saveSizeOnExit <;> cases hv : p.mainWindowSize.isValid
      <;> cases hf : p.fixedWindowSize.isValid
      <;> cases hp : (p.savePosOnExit && !p.mainWindowPosition.isNull && !wayland)
      <;> cases hs : p.saveStateOnExit <;> simp [h1, hv, hf, hp, hs]
  · cases h1 : p.saveSizeOnExit <;> cases hv : p.mainWindowSize.isValid
      <;> cases hf : p.fixedWindowSize.isValid
      <;> cases hp : (p.savePosOnExit && !p.mainWindowPosition.isNull && !wayland)
      <;> cases hs : p.saveStateOnExit <;> simp [h1, hv, hf, hp, hs]
  · simp

/-- With all three flags set, an invalid stored size and the stored position
(0, 0), the window is neither resized nor moved and its state is restored. -/
theorem initGeometry_calls_witness :
    initGeometry false false
        { savingProperties with mainWindowSize := { wd := -1, ht := -1 } }
      = [GeometryCall.restoreState []]
    ∧ initGeometry false false sampleProperties = [GeometryCall.resize { wd := 600, ht := 400 }]
    ∧ (∀ s, GeometryCall.resize s ∈ initGeometry false false
          { savingProperties with mainWindowSize := { wd := -1, ht := -1 } }
        ↔ (s = ({ savingProperties with mainWindowSize := { wd := -1, ht := -1 } }
                  : Properties).mainWindowSize
            ∧ ({ savingProperties with mainWindowSize := { wd := -1, ht := -1 } }
                  : Properties).mainWindowSize.isValid = true)) :=
  ⟨by decide, by decide,
    (initGeometry_calls false
      { savingProperties with mainWindowSize := { wd := -1, ht := -1 } }).1 rfl⟩

/-! ### The bookmarks file -/

theorem saveTarget_not_fromAppDir (env : BookmarksEnv) (fname : String)
    (h : (saveTarget env fname).2 = false) : (saveTarget env fname).1 = fname := by
  unfold saveTarget at h ⊢
  cases ha : env.appDir with
  | none => rfl
  | some a =>
    simp only [ha] at h ⊢
    cases h1 : a.isEmpty <;> cases h2 : (env.fileExists fname && env.dirIs fname a)
      <;> cases h3 : env.configDir.isEmpty
      <;> simp_all

/-- C16. `saveBookmarksFile` writes nothing and changes nothing when the path is
empty, and likewise when the file exists, is not taken from the application
directory and the document of the editor is unmodified.  It writes nothing when
a question is asked and the user answers No.  When it writes, the document of
the editor is unmodified afterwards.  A file that does not lie in the
application directory is never taken from it. -/
theorem saveBookmarksFile_writes (env : BookmarksEnv) (w : BookmarksPage) :
    (w.bookmarksLineEdit.text.isEmpty = true → saveBookmarksFile env w = (w, []))
    ∧ (env.fileExists w.bookmarksLineEdit.text = true
        ∧ (saveTarget env w.bookmarksLineEdit.text).2 = false
        ∧ w.bookmarkPlainEdit.isModified = false →
          saveBookmarksFile env w = (w, []))
    ∧ (env.answer = StandardButton.No
        ∧ ((∃ f, BookmarksCall.questionOverwrite f ∈ (saveBookmarksFile env w).2)
            ∨ BookmarksCall.questionNotXml ∈ (saveBookmarksFile env w).2) →
          (∀ f c, BookmarksCall.write f c ∉ (saveBookmarksFile env w).2)
          ∧ (saveBookmarksFile env w).1 = w)
    ∧ ((∃ f c, BookmarksCall.write f c ∈ (saveBookmarksFile env w).2) →
          (saveBookmarksFile env w).1.bookmarkPlainEdit.isModified = false)
    ∧ ((∀ a, env.appDir = some a → env.dirIs w.bookmarksLineEdit.text a = false) →
          (saveTarget env w.bookmarksLineEdit.text).2 = false) := by
  refine ⟨?_, ?_, ?_, ?_, ?_⟩
  · intro h
    simp [saveBookmarksFile, h]
  · rintro ⟨he, hf, hm⟩
    have h1 := saveTarget_not_fromAppDir env _ hf
    unfold saveBookmarksFile
    cases h0 : w.bookmarksLineEdit.text.isEmpty <;> simp [hf, hm, h1, he]
  · rintro ⟨ha, hq⟩
    unfold saveBookmarksFile at hq ⊢
    cases h0 : w.bookmarksLineEdit.text.isEmpty
      <;> cases h1 : (saveTarget env w.bookmarksLineEdit.text).2
      <;> cases h2 : w.bookmarkPlainEdit.isModified
      <;> cases h3 : env.fileExists (saveTarget env w.bookmarksLineEdit.text).1
      <;> cases h4 : ((saveTarget env w.bookmarksLineEdit.text).1.endsWith ".xml")
      <;> cases h5 : env.canWrite (saveTarget env w.bookmarksLineEdit.text).1
      <;> simp [h0, h1, h2, h3, h4, h5, ha] at hq ⊢
  · rintro ⟨f, c, hw⟩
    unfold saveBookmarksFile at hw ⊢
    cases h0 : w.bookmarksLineEdit.text.isEmpty
      <;> cases h1 : (saveTarget env w.bookmarksLineEdit.text).2
      <;> cases h2 : w.bookmarkPlainEdit.isModified
      <;> cases h3 : env.fileExists (saveTarget env w.bookmarksLineEdit.text).1
      <;> cases h4 : ((saveTarget env w.bookmarksLineEdit.text).1.endsWith ".xml")
      <;> cases h5 : env.canWrite (saveTarget env w.bookmarksLineEdit.text).1
      <;> cases h6 : env.answer
      <;> simp [h0, h1, h2, h3, h4, h5, h6] at hw ⊢
  · intro h
    unfold saveTarget
    cases ha : env.appDir with
    | none => rfl
    | some a => simp [h a ha]

/-- In a file system in which every path exists, the file of the application
directory is redirected to the configuration directory, the overwrite question
is asked, the user answers No, and nothing is written.  In the sample file
system a path that is not in use is written without a question, and the
document is unmodified afterwards. -/
theorem saveBookmarksFile_writes_witness :
    ((∀ f c, BookmarksCall.write f c ∉
          (saveBookmarksFile { sampleBookmarksEnv with fileExists := fun _ => true }
            sampleBookmarksPage).2)
      ∧ (saveBookmarksFile { sampleBookmarksEnv with fileExists := fun _ => true }
            sampleBookmarksPage).1 = sampleBookmarksPage)
    ∧ (saveBookmarksFile sampleBookmarksEnv
          { sampleBookmarksPage with bookmarksLineEdit := { text := "/home/u/b.xml" } }).2
        = [BookmarksCall.write "/home/u/b.xml" [60, 97, 47, 62]]
    ∧ (saveBookmarksFile sampleBookmarksEnv
          { sampleBookmarksPage with
            bookmarksLineEdit := { text := "/home/u/b.xml" } }).1.bookmarkPlainEdit.isModified
        = false :=
  ⟨(saveBookmarksFile_writes { sampleBookmarksEnv with fileExists := fun _ => true }
      sampleBookmarksPage).2.2.1
      ⟨rfl, Or.inl ⟨"/home/u/.config/qterminal.org/bookmarks.xml", by decide⟩⟩,
    by decide,
    (saveBookmarksFile_writes sampleBookmarksEnv
      { sampleBookmarksPage with bookmarksLineEdit := { text := "/home/u/b.xml" } }).2.2.2.1
      ⟨"/home/u/b.xml", [60, 97, 47, 62], by decide⟩⟩

/-- C17. `openBookmarksFile` leaves the page as it is when the path is empty.
Otherwise the text of the editor becomes the UTF-8 decoding of the content of
the file when the file can be opened for reading, and the built-in template
with the groups "Change Directory" and "File Manager" when it cannot; in both
cases the document is unmodified afterwards and the path is kept. -/
theorem openBookmarksFile_text (env : BookmarksEnv) (w : BookmarksPage) :
    (w.bookmarksLineEdit.text.isEmpty = true → openBookmarksFile env w = w)
    ∧ (w.bookmarksLineEdit.text.isEmpty = false →
        (∀ bytes, env.readAll w.bookmarksLineEdit.text = some bytes →
          (openBookmarksFile env w).bookmarkPlainEdit.plainText = env.fromUtf8 bytes)
        ∧ (env.readAll w.bookmarksLineEdit.text = none →
          (openBookmarksFile env w).bookmarkPlainEdit.plainText = defaultBookmarks)
        ∧ (openBookmarksFile env w).bookmarkPlainEdit.isModified = false
        ∧ (openBookmarksFile env w).bookmarksLineEdit = w.bookmarksLineEdit)
    ∧ defaultBookmarks
        = "<qterminal>\n  <group name=\"Change Directory\">\n"
          ++ "    <command name=\"Home\" value=\"cd $HOME\"/>\n  </group>\n"
          ++ "  <group name=\"File Manager\">\n"
          ++ "    <command name=\"Open here\" value=\"xdg-open $(pwd)\"/>\n  </group>\n"
          ++ "</qterminal>\n" := by
  refine ⟨?_, ?_, rfl⟩
  · intro h
    simp [openBookmarksFile, h]
  · intro h
    unfold openBookmarksFile
    cases hr : env.readAll w.bookmarksLineEdit.text <;> simp [h] <;> rw [hr]

/-- The sample page is read from the application directory, which gives the four
characters of the file; a path that cannot be read gives the template. -/
theorem openBookmarksFile_text_witness :
    sampleBookmarksPage.bookmarksLineEdit.text.isEmpty = false
    ∧ (openBookmarksFile sampleBookmarksEnv sampleBookmarksPage).bookmarkPlainEdit.plainText
        = sampleBookmarksEnv.fromUtf8 [60, 97, 47, 62]
    ∧ sampleBookmarksEnv.fromUtf8 [60, 97, 47, 62] = "<a/>"
    ∧ (openBookmarksFile sampleBookmarksEnv
          { sampleBookmarksPage with
            bookmarksLineEdit := { text := "/home/u/b.xml" } }).bookmarkPlainEdit.plainText
        = defaultBookmarks :=
  ⟨by decide,
    ((openBookmarksFile_text sampleBookmarksEnv sampleBookmarksPage).2.1 (by decide)).1
      [60, 97, 47, 62] (by decide),
    by decide,
    ((openBookmarksFile_text sampleBookmarksEnv
      { sampleBookmarksPage with bookmarksLineEdit := { text := "/home/u/b.xml" } }).2.1
      (by decide)).2.1 (by decide)⟩

/-! ### The history command -/

theorem splitSkipEmptyAux_eq_nil (sep : Char) (cs cur : List Char) :
    splitSkipEmptyAux sep cs cur = [] ↔ cur = [] ∧ ∀ c ∈ cs, c = sep := by
  induction cs generalizing cur with
  | nil => simp [splitSkipEmptyAux]
  | cons c cs ih =>
    unfold splitSkipEmptyAux
    by_cases hc : c = sep
    · by_cases hcur : cur = []
      · simp [hc, hcur, ih]
      · simp [hc, hcur]
    · simp [hc, ih]

theorem splitSkipEmptyAux_tokens (sep : Char) (cs cur : List Char) (hcur : sep ∉ cur) :
    ∀ t ∈ splitSkipEmptyAux sep cs cur, t.data ≠ [] ∧ sep ∉ t.data := by
  induction cs generalizing cur with
  | nil =>
    intro t ht
    unfold splitSkipEmptyAux at ht
    by_cases h : cur = []
    · simp [h] at ht
    · simp only [h, if_false, List.mem_singleton] at ht
      subst ht
      simpa using ⟨h, hcur⟩
  | cons c cs ih =>
    intro t ht
    unfold splitSkipEmptyAux at ht
    by_cases hc : c = sep
    · by_cases h : cur = []
      · simp only [hc, h, if_true] at ht
        exact ih [] (by simp) t ht
      · simp only [hc, h, if_true, if_false, List.mem_cons] at ht
        rcases ht with ht | ht
        · subst ht
          simpa using ⟨h, hcur⟩
        · exact ih [] (by simp) t ht
    · simp only [hc, if_false] at ht
      refine ih (c :: cur) ?_ t ht
      intro hm
      rcases List.mem_cons.mp hm with h | h
      · exact hc h.symm
      · exact hcur h

theorem splitSkipEmptyAux_join (sep : Char) (cs cur : List Char) :
    ((splitSkipEmptyAux sep cs cur).map String.data).flatten
      = cur.reverse ++ cs.filter (fun c => decide (c ≠ sep)) := by
  induction cs generalizing cur with
  | nil =>
    unfold splitSkipEmptyAux
    by_cases h : cur = [] <;> simp [h]
  | cons c cs ih =>
    unfold splitSkipEmptyAux
    by_cases hc : c = sep
    · by_cases h : cur = []
      · simp [hc, h, ih]
      · simp [hc, h, ih]
    · simp [hc, ih]

theorem splitSkipEmptyAux_skip (sep : Char) (n : Nat) (cs : List Char) :
    splitSkipEmptyAux sep (List.replicate n sep ++ cs) [] = splitSkipEmptyAux sep cs [] := by
  induction n with
  | zero => rfl
  | succ k ih =>
    simp only [List.replicate_succ, List.cons_append, splitSkipEmptyAux, if_true]
    exact ih

theorem splitSkipEmptyAux_run (sep : Char) (t rest cur : List Char) (ht : sep ∉ t) :
    splitSkipEmptyAux sep (t ++ rest) cur = splitSkipEmptyAux sep rest (t.reverse ++ cur) := by
  induction t generalizing cur with
  | nil => rfl
  | cons x xs ih =>
    have hne : x ≠ sep := fun h => ht (by simp [h])
    have hxs : sep ∉ xs := fun h => ht (List.mem_cons_of_mem _ h)
    simp only [List.cons_append, splitSkipEmptyAux, hne, if_false, List.reverse_cons,
      List.append_assoc, List.singleton_append]
    exact ih (x :: cur) hxs

/-- Where `split` cuts: leading separators are skipped, and the first part is
the run of characters up to the next separator or up to the end. -/
theorem splitSkipEmpty_cut (sep : Char) (n : Nat) (t : List Char) (ht : t ≠ [])
    (hfree : sep ∉ t) :
    (∀ rest : List Char,
      splitSkipEmpty (String.mk (List.replicate n sep ++ t ++ sep :: rest)) sep
        = String.mk t :: splitSkipEmpty (String.mk rest) sep)
    ∧ splitSkipEmpty (String.mk (List.replicate n sep ++ t)) sep = [String.mk t]
    ∧ splitSkipEmpty (String.mk (List.replicate n sep)) sep = [] := by
  have hrev : t.reverse ≠ [] := by simpa using ht
  refine ⟨?_, ?_, ?_⟩
  · intro rest
    unfold splitSkipEmpty
    simp only [List.append_assoc]
    rw [splitSkipEmptyAux_skip, splitSkipEmptyAux_run sep t _ [] hfree]
    simp only [List.append_nil, splitSkipEmptyAux, if_true, hrev, if_false,
      List.reverse_reverse]
  · unfold splitSkipEmpty
    have h := splitSkipEmptyAux_run sep t [] [] hfree
    simp only [List.append_nil] at h
    rw [splitSkipEmptyAux_skip, h]
    simp only [splitSkipEmptyAux, hrev, if_false, List.reverse_reverse]
  · unfold splitSkipEmpty
    have h := splitSkipEmptyAux_skip sep n []
    simp only [List.append_nil] at h
    rw [h]
    rfl

/-- C18. `handleHistory` does nothing when the history file cannot be opened for
writing, and starts no process when the history command holds nothing but
spaces.  Otherwise the command is split at the spaces: every token is non-empty
and free of spaces, and the tokens in a row are the characters of the command
without its spaces; the first token is started as the program, with the other
tokens in their order and then the path of the history file as arguments.
The command is cut at its spaces and nowhere else: after any number of leading
spaces, the program is the run of characters up to the next space, and the
arguments are the tokens of what follows that space, or none when the command
ends with the run. -/
theorem handleHistory_calls (dir : String) (pid : Nat) (canOpen : String → Bool)
    (p : Properties) :
    (canOpen (dir ++ "/qterminal.history." ++ toString pid) = false →
      handleHistory dir pid canOpen p = [])
    ∧ ((∀ c ∈ p.handleHistoryCommand.data, c = ' ') →
      ∀ command args, HistoryCall.startDetached command args
        ∉ handleHistory dir pid canOpen p)
    ∧ (canOpen (dir ++ "/qterminal.history." ++ toString pid) = true →
      (∃ c ∈ p.handleHistoryCommand.data, c ≠ ' ') →
      ∃ command rest, splitSkipEmpty p.handleHistoryCommand ' ' = command :: rest
        ∧ handleHistory dir pid canOpen p
          = [HistoryCall.saveHistory (dir ++ "/qterminal.history." ++ toString pid),
             HistoryCall.startDetached command
               (rest ++ [dir ++ "/qterminal.history." ++ toString pid])])
    ∧ (∀ t ∈ splitSkipEmpty p.handleHistoryCommand ' ', t.data ≠ [] ∧ ' ' ∉ t.data)
    ∧ ((splitSkipEmpty p.handleHistoryCommand ' ').map String.data).flatten
        = p.handleHistoryCommand.data.filter (fun c => decide (c ≠ ' '))
    ∧ (canOpen (dir ++ "/qterminal.history." ++ toString pid) = true →
      ∀ (n : Nat) (t rest : List Char), t ≠ [] → ' ' ∉ t →
        p.handleHistoryCommand = String.mk (List.replicate n ' ' ++ t ++ ' ' :: rest) →
        handleHistory dir pid canOpen p
          = [HistoryCall.saveHistory (dir ++ "/qterminal.history." ++ toString pid),
             HistoryCall.startDetached (String.mk t)
               (splitSkipEmpty (String.mk rest) ' '
                 ++ [dir ++ "/qterminal.history." ++ toString pid])])
    ∧ (canOpen (dir ++ "/qterminal.history." ++ toString pid) = true →
      ∀ (n : Nat) (t : List Char), t ≠ [] → ' ' ∉ t →
        p.handleHistoryCommand = String.mk (List.replicate n ' ' ++ t) →
        handleHistory dir pid canOpen p
          = [HistoryCall.saveHistory (dir ++ "/qterminal.history." ++ toString pid),
             HistoryCall.startDetached (String.mk t)
               [dir ++ "/qterminal.history." ++ toString pid]])
    ∧ (∀ (n : Nat) (t rest : List Char), t ≠ [] → ' ' ∉ t →
        splitSkipEmpty (String.mk (List.replicate n ' ' ++ t ++ ' ' :: rest)) ' '
            = String.mk t :: splitSkipEmpty (String.mk rest) ' '
        ∧ splitSkipEmpty (String.mk (List.replicate n ' ' ++ t)) ' ' = [String.mk t]
        ∧ splitSkipEmpty (String.mk (List.replicate n ' ')) ' ' = []) := by
  refine ⟨?_, ?_, ?_, ?_, ?_, ?_, ?_, ?_⟩
  · intro h
    simp [handleHistory, h]
  · intro h command args
    have hs : splitSkipEmpty p.handleHistoryCommand ' ' = [] :=
      (splitSkipEmptyAux_eq_nil ' ' _ []).mpr ⟨rfl, h⟩
    unfold handleHistory
    cases canOpen (dir ++ "/qterminal.history." ++ toString pid) <;> simp [hs]
  · intro h hex
    cases hs : splitSkipEmpty p.handleHistoryCommand ' ' with
    | nil =>
      obtain ⟨c, hc, hne⟩ := hex
      exact absurd (((splitSkipEmptyAux_eq_nil ' ' _ []).mp hs).2 c hc) hne
    | cons command rest =>
      refine ⟨command, rest, rfl, ?_⟩
      simp [handleHistory, h, hs]
  · exact splitSkipEmptyAux_tokens ' ' _ [] (by simp)
  · simpa using splitSkipEmptyAux_join ' ' p.handleHistoryCommand.data []
  · intro h n t rest ht hfree hcmd
    have hs := (splitSkipEmpty_cut ' ' n t ht hfree).1 rest
    rw [← hcmd] at hs
    simp [handleHistory, h, hs]
  · intro h n t ht hfree hcmd
    have hs := (splitSkipEmpty_cut ' ' n t ht hfree).2.1
    rw [← hcmd] at hs
    simp [handleHistory, h, hs]
  · intro n t rest ht hfree
    exact ⟨(splitSkipEmpty_cut ' ' n t ht hfree).1 rest,
      (splitSkipEmpty_cut ' ' n t ht hfree).2.1, (splitSkipEmpty_cut ' ' n t ht hfree).2.2⟩

/-- The command " less  -R " is split into "less" and "-R"; with the cache
directory "/c" and the process id 42 the program "less" is started with the
arguments "-R" and "/c/qterminal.history.42".  The command "xdg-open --newtab"
starts the program "xdg-open" with the first argument "--newtab". -/
theorem handleHistory_calls_witness :
    splitSkipEmpty " less  -R " ' ' = ["less", "-R"]
    ∧ handleHistory "/c" 42 (fun _ => true)
        { sampleProperties with handleHistoryCommand := " less  -R " }
      = [HistoryCall.saveHistory "/c/qterminal.history.42",
         HistoryCall.startDetached "less" ["-R", "/c/qterminal.history.42"]]
    ∧ (∃ command rest,
        splitSkipEmpty ({ sampleProperties with handleHistoryCommand := " less  -R " }
            : Properties).handleHistoryCommand ' ' = command :: rest
        ∧ handleHistory "/c" 42 (fun _ => true)
            { sampleProperties with handleHistoryCommand := " less  -R " }
          = [HistoryCall.saveHistory ("/c" ++ "/qterminal.history." ++ toString 42),
             HistoryCall.startDetached command
               (rest ++ ["/c" ++ "/qterminal.history." ++ toString 42])])
    ∧ handleHistory "/c" 42 (fun _ => true)
        { sampleProperties with handleHistoryCommand := "xdg-open --newtab" }
      = [HistoryCall.saveHistory ("/c" ++ "/qterminal.history." ++ toString 42),
         HistoryCall.startDetached (String.mk "xdg-open".data)
           (splitSkipEmpty (String.mk "--newtab".data) ' '
             ++ ["/c" ++ "/qterminal.history." ++ toString 42])]
    ∧ splitSkipEmpty (String.mk "--newtab".data) ' ' = ["--newtab"] :=
  ⟨by decide, by decide,
    (handleHistory_calls "/c" 42 (fun _ => true)
      { sampleProperties with handleHistoryCommand := " less  -R " }).2.2.1 rfl
      ⟨'l', by decide, by decide⟩,
    (handleHistory_calls "/c" 42 (fun _ => true)
      { sampleProperties with handleHistoryCommand := "xdg-open --newtab" }).2.2.2.2.2.1 rfl
      0 "xdg-open".data "--newtab".data (by decide) (by decide) (by decide),
    by decide⟩

/-! ### The Actions menu -/

/-- The Actions menu after `updateDisabledActions`: the same menu, in which an
action with a check has the result of its check as enabled flag. -/
theorem updateDisabledActions_eq (w : TabCounts) (en : ActionName → Bool) :
    updateDisabledActions w en
      = actionsMenu (fun n =>
          match n with
          | ActionName.Tab i => decide (w.holders ≥ (i : Int))
          | ActionName.TAB_NEXT => decide (w.holders > 1)
          | ActionName.TAB_PREV => decide (w.holders > 1)
          | ActionName.TAB_PREV_HISTORY => decide (w.holders > 1)
          | ActionName.TAB_NEXT_HISTORY => decide (w.holders > 1)
          | ActionName.MOVE_LEFT => decide (w.holders > 1)
          | ActionName.MOVE_RIGHT => decide (w.holders > 1)
          | ActionName.SUB_COLLAPSE => decide (w.terminals > 1)
          | ActionName.SUB_TOP => decide (w.terminals > 1)
          | ActionName.SUB_BOTTOM => decide (w.terminals > 1)
          | ActionName.SUB_LEFT => decide (w.terminals > 1)
          | ActionName.SUB_RIGHT => decide (w.terminals > 1)
          | other => en other) := by
  simp [updateDisabledActions, actionsMenu, goToMenu, goToAction, plainAction,
    enableActions, enableAction, Check.run]

theorem findEnabledIn_actionsMenu (en : ActionName → Bool) :
    (∀ i : Nat, 1 ≤ i → i ≤ 10 →
      MenuAction.findEnabledIn (ActionName.Tab i) (actionsMenu en) = some (en (ActionName.Tab i)))
    ∧ (∀ n ∈ [ActionName.CLEAR_TERMINAL, ActionName.TAB_NEXT, ActionName.TAB_PREV,
          ActionName.TAB_PREV_HISTORY, ActionName.TAB_NEXT_HISTORY, ActionName.MOVE_LEFT,
          ActionName.MOVE_RIGHT, ActionName.menuGoTo, ActionName.SPLIT_HORIZONTAL,
          ActionName.SPLIT_VERTICAL, ActionName.SUB_COLLAPSE, ActionName.SUB_TOP,
          ActionName.SUB_BOTTOM, ActionName.SUB_LEFT, ActionName.SUB_RIGHT, ActionName.FIND,
          ActionName.HANDLE_HISTORY, ActionName.separator 0, ActionName.separator 1,
          ActionName.separator 2, ActionName.separator 3],
        MenuAction.findEnabledIn n (actionsMenu en) = some (en n)) := by
  constructor
  · intro i h1 h10
    interval_cases i <;>
      simp [actionsMenu, goToMenu, goToAction, plainAction, MenuAction.findEnabledIn,
        MenuAction.findEnabled]
  · intro n hn
    simp only [List.mem_cons, List.mem_singleton, List.not_mem_nil, or_false] at hn
    rcases hn with h | h | h | h | h | h | h | h | h | h | h | h | h | h | h | h | h | h | h
        | h | h <;> subst h <;>
      simp [actionsMenu, goToMenu, goToAction, plainAction, MenuAction.findEnabledIn,
        MenuAction.findEnabled]

/-- C19. After `updateDisabledActions`, for every `i` from 1 to 10 the action
"Tab i" of the "Go to" menu is enabled exactly when the tab widget holds at
least `i` terminal holders; the actions with the check for several tabs (next
and previous tab, the two for the tab history, move tab left and right) are
enabled exactly when there is more than one holder; the actions with the check
for subterminals are enabled exactly when the current tab holds more than one
terminal; the entries without a check keep their enabled flag.  In general an
action with a check gets the result of the check, and an action without check
and without menu is left as it is. -/
theorem updateDisabledActions_enabled (w : TabCounts) (en : ActionName → Bool) :
    (∀ i : Nat, 1 ≤ i → i ≤ 10 →
      MenuAction.findEnabledIn (ActionName.Tab i) (updateDisabledActions w en)
        = some (decide (w.holders ≥ (i : Int))))
    ∧ (∀ n ∈ [ActionName.TAB_NEXT, ActionName.TAB_PREV, ActionName.TAB_PREV_HISTORY,
          ActionName.TAB_NEXT_HISTORY, ActionName.MOVE_LEFT, ActionName.MOVE_RIGHT],
        MenuAction.findEnabledIn n (updateDisabledActions w en)
          = some (decide (w.holders > 1)))
    ∧ (∀ n ∈ [ActionName.SUB_COLLAPSE, ActionName.SUB_TOP, ActionName.SUB_BOTTOM,
          ActionName.SUB_LEFT, ActionName.SUB_RIGHT],
        MenuAction.findEnabledIn n (updateDisabledActions w en)
          = some (decide (w.terminals > 1)))
    ∧ (∀ n ∈ [ActionName.CLEAR_TERMINAL, ActionName.SPLIT_HORIZONTAL,
          ActionName.SPLIT_VERTICAL, ActionName.FIND, ActionName.HANDLE_HISTORY,
          ActionName.menuGoTo, ActionName.separator 0, ActionName.separator 1,
          ActionName.separator 2, ActionName.separator 3],
        MenuAction.findEnabledIn n (updateDisabledActions w en) = some (en n))
    ∧ (∀ name isEnabled check tab menu,
        enableAction w (MenuAction.mk name isEnabled (some check) tab menu)
          = MenuAction.mk name (check.run w tab) (some check) tab menu)
    ∧ (∀ name isEnabled tab,
        enableAction w (MenuAction.mk name isEnabled none tab none)
          = MenuAction.mk name isEnabled none tab none) := by
  rw [updateDisabledActions_eq]
  refine ⟨?_, ?_, ?_, ?_, ?_, ?_⟩
  · intro i h1 h10
    rw [(findEnabledIn_actionsMenu _).1 i h1 h10]
  · intro n hn
    rw [(findEnabledIn_actionsMenu _).2 n (by
      simp only [List.mem_cons, List.mem_singleton, List.not_mem_nil, or_false] at hn ⊢
      rcases hn with h | h | h | h | h | h <;> simp [h])]
    simp only [List.mem_cons, List.mem_singleton, List.not_mem_nil, or_false] at hn
    rcases hn with h | h | h | h | h | h <;> subst h <;> rfl
  · intro n hn
    rw [(findEnabledIn_actionsMenu _).2 n (by
      simp only [List.mem_cons, List.mem_singleton, List.not_mem_nil, or_false] at hn ⊢
      rcases hn with h | h | h | h | h <;> simp [h])]
    simp only [List.mem_cons, List.mem_singleton, List.not_mem_nil, or_false] at hn
    rcases hn with h | h | h | h | h <;> subst h <;> rfl
  · intro n hn
    rw [(findEnabledIn_actionsMenu _).2 n (by
      simp only [List.mem_cons, List.mem_singleton, List.not_mem_nil, or_false] at hn ⊢
      rcases hn with h | h | h | h | h | h | h | h | h | h <;> simp [h])]
    simp only [List.mem_cons, List.mem_singleton, List.not_mem_nil, or_false] at hn
    rcases hn with h | h | h | h | h | h | h | h | h | h <;> subst h <;> rfl
  · intro name isEnabled check tab menu
    simp [enableAction]
  · intro name isEnabled tab
    simp [enableAction]

/-- With three terminal holders and one terminal in the current tab, "Tab 3" and
"Next Tab" are enabled, "Tab 4" and "Close Subterminal" are disabled, and
"Find" keeps its flag. -/
theorem updateDisabledActions_enabled_witness :
    MenuAction.findEnabledIn (ActionName.Tab 3)
        (updateDisabledActions { holders := 3, terminals := 1 } (fun _ => true))
      = some (decide (({ holders := 3, terminals := 1 } : TabCounts).holders ≥ ((3 : Nat) : Int)))
    ∧ MenuAction.findEnabledIn (ActionName.Tab 4)
        (updateDisabledActions { holders := 3, terminals := 1 } (fun _ => true))
      = some (decide (({ holders := 3, terminals := 1 } : TabCounts).holders ≥ ((4 : Nat) : Int)))
    ∧ decide (({ holders := 3, terminals := 1 } : TabCounts).holders ≥ ((3 : Nat) : Int)) = true
    ∧ decide (({ holders := 3, terminals := 1 } : TabCounts).holders ≥ ((4 : Nat) : Int)) = false
    ∧ MenuAction.findEnabledIn ActionName.SUB_COLLAPSE
        (updateDisabledActions { holders := 3, terminals := 1 } (fun _ => true))
      = some (decide (({ holders := 3, terminals := 1 } : TabCounts).terminals > 1))
    ∧ MenuAction.findEnabledIn ActionName.FIND
        (updateDisabledActions { holders := 3, terminals := 1 } (fun _ => true))
      = some ((fun _ => true) ActionName.FIND) :=
  ⟨(updateDisabledActions_enabled { holders := 3, terminals := 1 } (fun _ => true)).1 3
      (by decide) (by decide),
    (updateDisabledActions_enabled { holders := 3, terminals := 1 } (fun _ => true)).1 4
      (by decide) (by decide),
    by decide, by decide,
    (updateDisabledActions_enabled { holders := 3, terminals := 1 } (fun _ => true)).2.2.1
      ActionName.SUB_COLLAPSE (by decide),
    (updateDisabledActions_enabled { holders := 3, terminals := 1 } (fun _ => true)).2.2.2.1
      ActionName.FIND (by decide)⟩

/-! ### The delay of the mouse pointer -/

/-- C20. When the spin box can hold `d / 1000`, filling the dialog from the stored
delay `d` and applying it without an edit stores `1000 * (d / 1000)` for
`d ≥ 1000` and -1 for every `d < 1000`; so the stored delay is kept exactly
when `d` is -1 or a positive multiple of 1000. -/
theorem apply_init_mouseAutoHideDelay (haveLibcanberra : Bool) (ui : PropertiesDialog)
    (parent : Option ParentWindow) (p : Properties)
    (hmin : ui.mouseAutoHideSpinBox.minimum ≤ Int.tdiv p.mouseAutoHideDelay 1000)
    (hmax : Int.tdiv p.mouseAutoHideDelay 1000 ≤ ui.mouseAutoHideSpinBox.maximum) :
    (1000 ≤ p.mouseAutoHideDelay →
      (apply haveLibcanberra (init haveLibcanberra ui parent p) p).mouseAutoHideDelay
        = 1000 * Int.tdiv p.mouseAutoHideDelay 1000)
    ∧ (p.mouseAutoHideDelay < 1000 →
      (apply haveLibcanberra (init haveLibcanberra ui parent p) p).mouseAutoHideDelay = -1)
    ∧ ((apply haveLibcanberra (init haveLibcanberra ui parent p) p).mouseAutoHideDelay
          = p.mouseAutoHideDelay
        ↔ (p.mouseAutoHideDelay = -1
            ∨ (0 < p.mouseAutoHideDelay ∧ (1000 : Int) ∣ p.mouseAutoHideDelay))) := by
  have happ : (apply haveLibcanberra (init haveLibcanberra ui parent p) p).mouseAutoHideDelay
      = applyAutoDelay (ui.mouseAutoHideSpinBox.bound
          (if p.mouseAutoHideDelay > 0 then Int.tdiv p.mouseAutoHideDelay 1000
            else p.mouseAutoHideDelay)) := rfl
  rw [happ]
  have hdiv : ∀ d : Int, 0 ≤ d → Int.tdiv d 1000 = d / 1000 := fun d hd =>
    Int.tdiv_eq_ediv hd (by decide)
  have hneg : ∀ d : Int, d ≤ 0 → Int.tdiv d 1000 = -((-d) / 1000) := by
    intro d hd
    have h2 : Int.tdiv (-(-d)) 1000 = -(Int.tdiv (-d) 1000) := Int.neg_tdiv (-d) 1000
    rw [Int.neg_neg] at h2
    rw [h2, Int.tdiv_eq_ediv (by omega) (by decide)]
  have hge : 1000 ≤ p.mouseAutoHideDelay →
      applyAutoDelay (ui.mouseAutoHideSpinBox.bound
          (if p.mouseAutoHideDelay > 0 then Int.tdiv p.mouseAutoHideDelay 1000
            else p.mouseAutoHideDelay))
        = 1000 * Int.tdiv p.mouseAutoHideDelay 1000 := by
    intro hd
    have hpos : p.mouseAutoHideDelay > 0 := by omega
    have hq := hdiv p.mouseAutoHideDelay (by omega)
    have hb : ui.mouseAutoHideSpinBox.bound (Int.tdiv p.mouseAutoHideDelay 1000)
        = Int.tdiv p.mouseAutoHideDelay 1000 := by
      unfold QSpinBox.bound
      have h1 : ¬ (Int.tdiv p.mouseAutoHideDelay 1000 < ui.mouseAutoHideSpinBox.minimum) := by
        omega
      have h2 : ¬ (Int.tdiv p.mouseAutoHideDelay 1000 > ui.mouseAutoHideSpinBox.maximum) := by
        omega
      simp only [h1, h2, if_false]
    simp only [hpos, if_true, hb]
    have hq1 : 0 < Int.tdiv p.mouseAutoHideDelay 1000 := by
      rw [hq]
      omega
    simp only [applyAutoDelay, gt_iff_lt, hq1, if_true]
    omega
  have hlt : p.mouseAutoHideDelay < 1000 →
      applyAutoDelay (ui.mouseAutoHideSpinBox.bound
          (if p.mouseAutoHideDelay > 0 then Int.tdiv p.mouseAutoHideDelay 1000
            else p.mouseAutoHideDelay)) = -1 := by
    intro hd
    have hv : ui.mouseAutoHideSpinBox.bound
        (if p.mouseAutoHideDelay > 0 then Int.tdiv p.mouseAutoHideDelay 1000
          else p.mouseAutoHideDelay) ≤ 0 := by
      unfold QSpinBox.bound
      by_cases hpos : p.mouseAutoHideDelay > 0
      · have hq := hdiv p.mouseAutoHideDelay (by omega)
        have hz : Int.tdiv p.mouseAutoHideDelay 1000 = 0 := by
          rw [hq]
          omega
        simp only [hpos, if_true, hz]
        rw [hz] at hmin hmax
        split <;> split <;> omega
      · have hq := hneg p.mouseAutoHideDelay (by omega)
        rw [hq] at hmin hmax
        simp only [hpos, if_false]
        split <;> split <;> omega
    have hn : ¬ (ui.mouseAutoHideSpinBox.bound
        (if p.mouseAutoHideDelay > 0 then Int.tdiv p.mouseAutoHideDelay 1000
          else p.mouseAutoHideDelay) > 0) := by omega
    simp only [applyAutoDelay, hn, if_false]
  refine ⟨hge, hlt, ?_⟩
  rcases Int.lt_or_le p.mouseAutoHideDelay 1000 with hd | hd
  · rw [hlt hd]
    constructor
    · intro h
      exact Or.inl h.symm
    · rintro (h | ⟨h0, hdvd⟩)
      · exact h.symm
      · obtain ⟨k, hk⟩ := hdvd
        omega
  · rw [hge hd, hdiv _ (by omega)]
    constructor
    · intro h
      exact Or.inr ⟨by omega, ⟨p.mouseAutoHideDelay / 1000, h.symm⟩⟩
    · rintro (h | ⟨h0, hdvd⟩)
      · omega
      · obtain ⟨k, hk⟩ := hdvd
        omega

/-- A stored delay of 2500 ms comes back as 2000 ms, and a stored delay of 500 ms
comes back as -1. -/
theorem apply_init_mouseAutoHideDelay_witness :
    (sampleDialog.mouseAutoHideSpinBox.minimum
        ≤ Int.tdiv ({ sampleProperties with mouseAutoHideDelay := 2500 }
            : Properties).mouseAutoHideDelay 1000
      ∧ Int.tdiv ({ sampleProperties with mouseAutoHideDelay := 2500 }
            : Properties).mouseAutoHideDelay 1000
          ≤ sampleDialog.mouseAutoHideSpinBox.maximum)
    ∧ (apply false (init false sampleDialog none
          { sampleProperties with mouseAutoHideDelay := 2500 })
        { sampleProperties with mouseAutoHideDelay := 2500 }).mouseAutoHideDelay
      = 1000 * Int.tdiv ({ sampleProperties with mouseAutoHideDelay := 2500 }
            : Properties).mouseAutoHideDelay 1000
    ∧ (1000 : Int) * Int.tdiv 2500 1000 = 2000
    ∧ (apply false (init false sampleDialog none
          { sampleProperties with mouseAutoHideDelay := 500 })
        { sampleProperties with mouseAutoHideDelay := 500 }).mouseAutoHideDelay = -1 :=
  ⟨⟨by decide, by decide⟩,
    (apply_init_mouseAutoHideDelay false sampleDialog none
      { sampleProperties with mouseAutoHideDelay := 2500 } (by decide) (by decide)).1
      (by decide),
    by decide,
    (apply_init_mouseAutoHideDelay false sampleDialog none
      { sampleProperties with mouseAutoHideDelay := 500 } (by decide) (by decide)).2.1
      (by decide)⟩

/-! ### The shortcuts table -/

theorem splitKeepEmptyAux_append (sep : Char) (xs rest cur : List Char) (hx : sep ∉ xs) :
    splitKeepEmptyAux sep (xs ++ rest) cur = splitKeepEmptyAux sep rest (xs.reverse ++ cur) := by
  induction xs generalizing cur with
  | nil => rfl
  | cons x xs ih =>
    have hne : x ≠ sep := fun h => hx (by simp [h])
    have hxs : sep ∉ xs := fun h => hx (List.mem_cons_of_mem _ h)
    simp only [List.cons_append, splitKeepEmptyAux, hne, if_false, List.reverse_cons,
      List.append_assoc, List.singleton_append]
    exact ih (x :: cur) hxs

theorem splitKeepEmptyAux_free (sep : Char) (cs cur : List Char) (hcur : sep ∉ cur) :
    ∀ t ∈ splitKeepEmptyAux sep cs cur, sep ∉ t.data := by
  induction cs generalizing cur with
  | nil =>
    intro t ht
    simp only [splitKeepEmptyAux, List.mem_singleton] at ht
    subst ht
    simpa using hcur
  | cons c cs ih =>
    intro t ht
    unfold splitKeepEmptyAux at ht
    by_cases hc : c = sep
    · simp only [hc, if_true, List.mem_cons] at ht
      rcases ht with ht | ht
      · subst ht
        simpa using hcur
      · exact ih [] (by simp) t ht
    · simp only [hc, if_false] at ht
      refine ih (c :: cur) ?_ t ht
      intro hm
      rcases List.mem_cons.mp hm with h | h
      · exact hc h.symm
      · exact hcur h

theorem joinStrings_cons_cons (sep : Char) (s t : String) (rest : List String) :
    (joinStrings sep (s :: t :: rest)).data
      = s.data ++ sep :: (joinStrings sep (t :: rest)).data := by
  simp [joinStrings, String.data_append, String.singleton]

theorem splitKeepEmpty_joinStrings (sep : Char) (strs : List String) (hne : strs ≠ [])
    (hfree : ∀ s ∈ strs, sep ∉ s.data) :
    splitKeepEmpty (joinStrings sep strs) sep = strs := by
  induction strs with
  | nil => exact absurd rfl hne
  | cons s rest ih =>
    cases rest with
    | nil =>
      have h := splitKeepEmptyAux_append sep s.data [] [] (hfree s (by simp))
      simp only [List.append_nil] at h
      simp [splitKeepEmpty, joinStrings, h, splitKeepEmptyAux]
    | cons t rest =>
      have hs : sep ∉ s.data := hfree s (by simp)
      have ih2 := ih (by simp) (fun u hu => hfree u (List.mem_cons_of_mem _ hu))
      unfold splitKeepEmpty at ih2 ⊢
      rw [joinStrings_cons_cons, splitKeepEmptyAux_append sep s.data _ [] hs]
      simp only [List.append_nil, splitKeepEmptyAux, if_true, List.reverse_reverse, ih2]

theorem splitKeepEmptyAux_ne_nil (sep : Char) (cs cur : List Char) :
    splitKeepEmptyAux sep cs cur ≠ [] := by
  induction cs generalizing cur with
  | nil => simp [splitKeepEmptyAux]
  | cons c cs ih =>
    unfold splitKeepEmptyAux
    by_cases hc : c = sep
    · simp [hc]
    · simp only [hc, if_false]
      exact ih (c :: cur)

/-- The text of an action is split into the same strings exactly when none of
its strings holds the separator. -/
theorem setupShortcutsItem_split_iff {K : Type} (toString : K → String)
    (shortcuts : List K) (hne : shortcuts ≠ []) :
    splitKeepEmpty (setupShortcutsItem toString shortcuts) '|' = shortcuts.map toString
      ↔ ∀ k ∈ shortcuts, '|' ∉ (toString k).data := by
  have hne2 : shortcuts.map toString ≠ [] := by
    intro h
    exact hne (List.map_eq_nil_iff.mp h)
  constructor
  · intro h k hk
    have hmem : toString k ∈ splitKeepEmpty (setupShortcutsItem toString shortcuts) '|' := by
      rw [h]
      exact List.mem_map.mpr ⟨k, hk, rfl⟩
    exact splitKeepEmptyAux_free '|' _ [] (by simp) _ hmem
  · intro hfree
    refine splitKeepEmpty_joinStrings '|' (shortcuts.map toString) hne2 ?_
    intro s hs
    obtain ⟨k, hk, rfl⟩ := List.mem_map.mp hs
    exact hfree k hk

/-- C21. `setupShortcuts` has every action made anew by `setup_Action` from its
stored text, which is split at '|'; so the action has at least one key
sequence, and each comes from a string without '|'.  With a key sequence taken
for its text, the text that `setupShortcuts` writes (the strings joined with
'|') is split by `applyShortcuts` into the same strings in the same order, and
the action gets the key sequences it had.  For any type of key sequences, as
long as reading a string without '|' never gives a key sequence whose text
holds '|', the text written is split into the strings of the key sequences in
their order, and the action gets as many key sequences as it had, each read
from the string of the key sequence at its place. -/
theorem shortcut_roundtrip {K : Type} (fromString fromNative : String → K)
    (toString : K → String) (stored : String) :
    MainWindow.setup_Action fromString stored ≠ []
    ∧ splitKeepEmpty (setupShortcutsText (fun s : String => s) (fun s : String => s) stored) '|'
        = (MainWindow.setup_Action (fun s : String => s) stored).map (fun s : String => s)
    ∧ applyShortcutsItem (fun s : String => s)
          (setupShortcutsText (fun s : String => s) (fun s : String => s) stored)
        = MainWindow.setup_Action (fun s : String => s) stored
    ∧ ((∀ s : String, '|' ∉ s.data → '|' ∉ (toString (fromString s)).data) →
        splitKeepEmpty (setupShortcutsText fromString toString stored) '|'
            = (MainWindow.setup_Action fromString stored).map toString
        ∧ applyShortcutsItem fromNative (setupShortcutsText fromString toString stored)
            = (MainWindow.setup_Action fromString stored).map
                (fun k => fromNative (toString k))
        ∧ (applyShortcutsItem fromNative
              (setupShortcutsText fromString toString stored)).length
            = (MainWindow.setup_Action fromString stored).length) := by
  have hparts : splitKeepEmpty stored '|' ≠ [] := splitKeepEmptyAux_ne_nil '|' _ []
  have hfree : ∀ t ∈ splitKeepEmpty stored '|', '|' ∉ t.data :=
    splitKeepEmptyAux_free '|' _ [] (by simp)
  have hne : ∀ (L : Type) (f : String → L), MainWindow.setup_Action f stored ≠ [] := by
    intro L f h
    exact hparts (List.map_eq_nil_iff.mp h)
  have key : ∀ (L : Type) (f : String → L) (g : L → String),
      (∀ s : String, '|' ∉ s.data → '|' ∉ (g (f s)).data) →
      splitKeepEmpty (setupShortcutsText f g stored) '|'
        = (MainWindow.setup_Action f stored).map g := by
    intro L f g hbar
    refine (setupShortcutsItem_split_iff g _ (hne L f)).mpr ?_
    intro k hk
    obtain ⟨s, hs, rfl⟩ := List.mem_map.mp hk
    exact hbar s (hfree s hs)
  have hid := key String (fun s => s) (fun s => s) (fun _ h => h)
  refine ⟨hne K fromString, hid, ?_, ?_⟩
  · have h2 : applyShortcutsItem (fun s : String => s)
        (setupShortcutsText (fun s : String => s) (fun s : String => s) stored)
        = (splitKeepEmpty
            (setupShortcutsText (fun s : String => s) (fun s : String => s) stored) '|').map
            (fun s : String => s) := rfl
    rw [h2, hid]
    simp
  · intro hbar
    have h := key K fromString toString hbar
    have h2 : applyShortcutsItem fromNative (setupShortcutsText fromString toString stored)
        = (splitKeepEmpty (setupShortcutsText fromString toString stored) '|').map
            fromNative := rfl
    refine ⟨h, ?_, ?_⟩
    · rw [h2, h, List.map_map]
      rfl
    · rw [h2, h, List.length_map, List.length_map]

/-- The stored text "Ctrl+Shift+T|F5" gives the action two key sequences; the
dialog writes "Ctrl+Shift+T|F5" and reads the same two back.  The stored text
"Ctrl+|" gives the two key sequences "Ctrl+" and "", which also come back as
they are. -/
theorem shortcut_roundtrip_witness :
    MainWindow.setup_Action (fun s : String => s) "Ctrl+Shift+T|F5" = ["Ctrl+Shift+T", "F5"]
    ∧ setupShortcutsText (fun s : String => s) (fun s : String => s) "Ctrl+Shift+T|F5"
        = "Ctrl+Shift+T|F5"
    ∧ applyShortcutsItem (fun s : String => s)
          (setupShortcutsText (fun s : String => s) (fun s : String => s) "Ctrl+Shift+T|F5")
        = MainWindow.setup_Action (fun s : String => s) "Ctrl+Shift+T|F5"
    ∧ MainWindow.setup_Action (fun s : String => s) "Ctrl+|" = ["Ctrl+", ""]
    ∧ (applyShortcutsItem (fun s : String => s)
          (setupShortcutsText (fun s : String => s) (fun s : String => s) "Ctrl+|")
        = (MainWindow.setup_Action (fun s : String => s) "Ctrl+|").map
            (fun k => (fun s : String => s) ((fun s : String => s) k))) :=
  ⟨by decide, by decide,
    (shortcut_roundtrip (fun s : String => s) (fun s : String => s) (fun s : String => s)
      "Ctrl+Shift+T|F5").2.2.1,
    by decide,
    ((shortcut_roundtrip (fun s : String => s) (fun s : String => s) (fun s : String => s)
      "Ctrl+|").2.2.2 (fun _ h => h)).2.1⟩

end QTerminal
